import Mathlib

/-!
Verification of the Memory Persistence & Encryption Layer of the Loops repository.

The development shallowly embeds the core services:
  * `src/lib/key-management.ts`  (KeyManagementService)
  * `src/lib/memory-service.ts`  (MemoryService orchestrator and GolemStorageService adapter)
  * the encryption service interface (its implementation file `src/lib/encryption.ts` is not
    part of the provided sources; it is modelled from the specification, see the marked
    definitions below)

Conventions of the embedding:
  * JavaScript strings are Lean `String`s; `Date` values are their ISO-8601 string forms
    (ISO strings compare lexicographically exactly as the corresponding dates compare).
  * Randomness (UUIDs, salts, IVs) and remote-call outcomes are supplied as explicit
    oracle arguments, so every function is a pure state transformer.
  * Thrown JS exceptions are `Except` errors; `try/catch` blocks become matches on them.
  * The SHA-256 digest (a Web Crypto call, external to the repository) is an arbitrary
    function parameter `sha256Hex : String → String`.
-/

set_option maxRecDepth 100000

namespace Loops

/-! ## Small JavaScript-semantics helpers -/

/-- JS truthiness of a `string | undefined` value: `undefined` and `""` are falsy. -/
def jsTruthyStr (o : Option String) : Bool :=
  match o with
  | none => false
  | some s => s != ""

/-- Character-list version of JS `String.prototype.startsWith`. -/
def leadsWith : List Char → List Char → Bool
  | [], _ => true
  | _ :: _, [] => false
  | a :: as, b :: bs => a == b && leadsWith as bs

/-- Character-list version of JS `String.prototype.includes` (substring test). -/
def hasSegment (q : List Char) : List Char → Bool
  | [] => q.isEmpty
  | c :: rest => leadsWith q (c :: rest) || hasSegment q rest

/-- JS `s.includes(q)` on strings. -/
def containsSub (s q : String) : Bool := hasSegment q.data s.data

/-- JS `String.prototype.toLowerCase` (ASCII range, which is all the code relies on). -/
def lowerStr (s : String) : String := String.mk (s.data.map Char.toLower)

/-- Lexicographic string comparison mirroring JS `<=` on strings. -/
def strLeB (a b : String) : Bool := a == b || a < b

/-- One JSON string-escape step, mirroring `JSON.stringify` for the characters the
repository's data can contain. -/
def jsonEscapeChar (c : Char) : List Char :=
  if c = '"' then ['\\', '"']
  else if c = '\\' then ['\\', '\\']
  else if c = '\n' then ['\\', 'n']
  else if c = '\r' then ['\\', 'r']
  else if c = '\t' then ['\\', 't']
  else [c]

/-- JSON string escaping, as performed by `JSON.stringify` on string values. -/
def jsonEscape (s : String) : String :=
  String.mk (s.data.foldr (fun c acc => jsonEscapeChar c ++ acc) [])

/-- Inverse of `jsonEscape`, used by the envelope parser (`JSON.parse`). -/
def jsonUnescapeL : List Char → List Char
  | [] => []
  | '\\' :: c :: rest =>
    (if c = 'n' then '\n' else if c = 'r' then '\r' else if c = 't' then '\t' else c) ::
      jsonUnescapeL rest
  | c :: rest => c :: jsonUnescapeL rest

/-- Split a character list at the first occurrence of a separator. -/
def splitOnceL (sep : List Char) : List Char → Option (List Char × List Char)
  | [] => if sep.isEmpty then some ([], []) else none
  | c :: rest =>
    if leadsWith sep (c :: rest) then some ([], (c :: rest).drop sep.length)
    else (splitOnceL sep rest).map (fun p => (c :: p.1, p.2))

/-- Drop a mandatory literal from the front of a character list. -/
def stripLeadL (pre s : List Char) : Option (List Char) :=
  if leadsWith pre s then some (s.drop pre.length) else none

/-- Parse a decimal numeral. -/
def parseNatL (l : List Char) : Option Nat :=
  if l.isEmpty || !(l.all Char.isDigit) then none
  else some (l.foldl (fun n c => n * 10 + (c.toNat - 48)) 0)

/-- Hexadecimal digit for `Number.prototype.toString(16)`. -/
def hexDigitChar (n : Nat) : Char :=
  if n < 10 then Char.ofNat (48 + n) else Char.ofNat (87 + n)

/-- Fuel-based hex rendering (the fuel is the number itself, which bounds the digit count). -/
def natToHexAux : Nat → Nat → List Char
  | 0, _ => []
  | fuel + 1, n =>
    if n = 0 then [] else natToHexAux fuel (n / 16) ++ [hexDigitChar (n % 16)]

/-- JS `Math.abs(n).toString(16)` for a natural number. -/
def natToHex (n : Nat) : String :=
  if n = 0 then "0" else String.mk (natToHexAux n n)

/-- UTF-8 byte length of one character, as produced by `TextEncoder.encode`. -/
def utf8CharLen (c : Char) : Nat :=
  if c.toNat < 128 then 1
  else if c.toNat < 2048 then 2
  else if c.toNat < 65536 then 3
  else 4

/-- UTF-8 byte length of a string, as produced by `TextEncoder.encode`. -/
def utf8Len (s : String) : Nat := (s.data.map utf8CharLen).sum

/-! ## Data model (`src/types/memory.ts`, `src/types/encryption.ts`) -/

/-- `MemoryType` from `src/types/memory.ts`. -/
inductive MemoryType
  | conversation
  | learned_fact
  | user_preference
  | task_outcome
  | multimedia
  | workflow
  | agent_share
  | profile_data
deriving DecidableEq, Repr

/-- String form of a memory type, as serialized to the ledger. -/
def memTypeStr : MemoryType → String
  | .conversation => "conversation"
  | .learned_fact => "learned_fact"
  | .user_preference => "user_preference"
  | .task_outcome => "task_outcome"
  | .multimedia => "multimedia"
  | .workflow => "workflow"
  | .agent_share => "agent_share"
  | .profile_data => "profile_data"

/-- `Permission` from `src/types/memory.ts` (conditions are the opaque list the code
constructs; the service only ever writes `[]`). -/
structure Permission where
  agentId : String
  actions : List String
  conditions : List String
deriving DecidableEq, Repr

/-- `AccessPolicy` from `src/types/memory.ts`. The optional `timelock`/`threshold`
policies are never populated by the embedded code paths and are omitted. -/
structure AccessPolicy where
  owner : String
  permissions : List Permission
deriving DecidableEq, Repr

/-- `MemoryMetadata` from `src/types/memory.ts`, restricted to the fields the
memory service populates. -/
structure MemoryMetadata where
  size : Nat
  mimeType : String
  encoding : String
  checksum : String
  version : Nat
  relatedMemories : List String
  encryptionKeyId : Option String
  encryptionSalt : Option String
deriving DecidableEq, Repr

/-- `MemoryEntry` from `src/types/memory.ts`. `createdAt`/`updatedAt` are ISO strings;
`ipfsHash` holds the Golem Base entity key (the storage handle). The purely
presentational `entityUrl`/`transactionUrl`/`nearTransactionId` fields are omitted. -/
structure MemoryEntry where
  id : String
  content : String
  type : MemoryType
  category : String
  tags : List String
  createdAt : String
  updatedAt : String
  encrypted : Bool
  accessPolicy : AccessPolicy
  metadata : MemoryMetadata
  ipfsHash : Option String
deriving DecidableEq, Repr

/-- `EncryptedData` from `src/types/encryption.ts`: the self-describing envelope. -/
structure EncryptedData where
  encryptedContent : String
  iv : String
  salt : String
  tag : String
  algorithm : String
  keyDerivation : String
  iterations : Nat
deriving DecidableEq, Repr

/-- `EncryptionKey` from `src/types/encryption.ts` (fields the services populate). -/
structure EncryptionKey where
  publicKey : String
  privateKey : String
  keyId : String
  algorithm : String
  createdAt : String
  salt : Option String
deriving DecidableEq, Repr

/-! ## Key Management Service (`src/lib/key-management.ts`) -/

/-- In-memory state of `KeyManagementService`: the session master key and the
insertion-ordered session key cache (`Map<string, EncryptionKey>`). -/
structure KMState where
  masterKey : Option String
  sessionKeys : List (String × EncryptionKey)
deriving DecidableEq, Repr

/-- JS `Map.set`: replace in place if the key exists, else append. -/
def mapSet (m : List (String × EncryptionKey)) (k : String) (v : EncryptionKey) :
    List (String × EncryptionKey) :=
  if m.any (fun p => p.1 == k) then m.map (fun p => if p.1 == k then (k, v) else p)
  else m ++ [(k, v)]

/-- JS `Map.get`. -/
def mapGet (m : List (String × EncryptionKey)) (k : String) : Option EncryptionKey :=
  (m.find? (fun p => p.1 == k)).map (fun p => p.2)

/-- Error thrown by `generateMemoryKey` when no master key is set. -/
inductive KMError
  | notInitialized
deriving DecidableEq, Repr

/-- `KeyManagementService.initializeWithPassword`. -/
def initializeWithPassword (password : String) (km : KMState) : KMState :=
  { km with masterKey := some password }

/-- `KeyManagementService.isInitialized`: `!!this.masterKey` (JS truthiness, so an
empty-string master key counts as uninitialized). -/
def isInitialized (km : KMState) : Bool := jsTruthyStr km.masterKey

/-- `KeyManagementService.getKey`: a pure cache lookup, never derives. -/
def getKey (km : KMState) (keyId : String) : Option EncryptionKey :=
  mapGet km.sessionKeys keyId

/-- `KeyManagementService.clearSession`. -/
def clearSession (_km : KMState) : KMState := ⟨none, []⟩

/-- `KeyManagementService.deriveKey`: two chained SHA-256 passes over
`password + salt`, each rendered as a hex string. The digest-to-hex composite is the
external `sha256Hex` parameter. -/
def deriveKey (sha256Hex : String → String) (password salt : String) : String :=
  sha256Hex (sha256Hex (password ++ salt) ++ salt)

/-- `KeyManagementService.generateMemoryKey`. `freshSalt` is the value
`generateRandomSalt()` would produce; `now` is the current time. Mirrors the source:
throws when `!this.masterKey`; uses `salt || random`; derives from
`` `${masterKey}_${memoryId}_${memorySalt}` ``; caches under `` `memory_${memoryId}` ``. -/
def generateMemoryKey (sha256Hex : String → String) (km : KMState)
    (freshSalt now memoryId : String) (salt? : Option String) :
    Except KMError (EncryptionKey × KMState) :=
  if isInitialized km = false then .error .notInitialized
  else
    let mk := km.masterKey.getD ""
    let keyId := "memory_" ++ memoryId
    let memorySalt :=
      match salt? with
      | some s => if s = "" then freshSalt else s
      | none => freshSalt
    let keyMaterial := mk ++ "_" ++ memoryId ++ "_" ++ memorySalt
    let derivedKey := deriveKey sha256Hex keyMaterial memorySalt
    let key : EncryptionKey :=
      { publicKey := derivedKey, privateKey := derivedKey, keyId := keyId,
        algorithm := "AES-256-GCM", createdAt := now, salt := some memorySalt }
    .ok (key, { km with sessionKeys := mapSet km.sessionKeys keyId key })

/-! ## Encryption Service

Modelled from the spec: the implementation file `src/lib/encryption.ts` is not among the
provided sources (only its callers and the `src/types/encryption.ts` interfaces are), so
the service is modelled from spec section 4.2: authenticated symmetric encryption with a
key looked up by id, producing the self-describing `EncryptedData` envelope; decryption
fails when the key is absent, the key is wrong (tag verification), or the envelope is
malformed.  The AEAD cipher itself is external CPU-bound crypto; the model captures its
functional contract — `decrypt(encrypt(P, K), K) = P` and authenticated failure on a key
mismatch — by storing a reversible encoding of the plaintext as the ciphertext and the
key material's tag as the authentication tag.  (Secrecy properties are out of scope.) -/

/-- State of the encryption service: its own persisted key list (the keys that back
`getKeys()` / `saveKeysToStorage()` in the callers). Modelled from the spec. -/
structure ESState where
  keys : List EncryptionKey
deriving DecidableEq, Repr

/-- Errors surfaced by the encryption service (spec section 4.2 / 7). -/
inductive ESError
  | keyNotFound
  | decryptionFailed
deriving DecidableEq, Repr

/-- Reversible ciphertext encoding (model stand-in for the AEAD cipher output):
each plaintext character is followed by a marker, so no plaintext substring of
length ≥ 2 survives verbatim — mirroring that real ciphertext does not contain
plaintext or identifier substrings. -/
def ctEncodeL : List Char → List Char
  | [] => []
  | c :: cs => c :: '.' :: ctEncodeL cs

/-- Inverse of `ctEncodeL`; fails on malformed ciphertext. -/
def ctDecodeL : List Char → Option (List Char)
  | [] => some []
  | _ :: [] => none
  | c :: d :: rest => if d = '.' then (ctDecodeL rest).map (fun l => c :: l) else none

/-- String-level ciphertext encoding. -/
def ctEncode (s : String) : String := String.mk (ctEncodeL s.data)

/-- String-level ciphertext decoding. -/
def ctDecode (s : String) : Option String := (ctDecodeL s.data).map String.mk

/-- Authentication tag of a key's material (model stand-in for the GCM tag). -/
def authTag (material : String) : String := "tag_" ++ material

/-- Modelled from the spec: produce the self-describing envelope for a plaintext under a
derived key, with the supplied random IV. -/
def encryptWithKey (key : EncryptionKey) (plaintext iv : String) : EncryptedData :=
  { encryptedContent := ctEncode plaintext, iv := iv, salt := key.salt.getD "",
    tag := authTag key.privateKey, algorithm := "AES-256-GCM",
    keyDerivation := "PBKDF2", iterations := 100000 }

/-- Modelled from the spec: authenticated decryption — succeeds with the original
plaintext exactly when the supplied key matches the encryption key. -/
def decryptWithKey (env : EncryptedData) (key : EncryptionKey) : Option String :=
  if env.tag == authTag key.privateKey && env.algorithm == "AES-256-GCM" then
    ctDecode env.encryptedContent
  else none

/-- Key lookup used by the service: the session cache of key management first (spec
section 4.2 routes lookups through `keyManagement.getKey`), then the service's own
stored keys (which back the fallback iteration in `memory-service.ts`). -/
def lookupKey (es : ESState) (km : KMState) (keyId : String) : Option EncryptionKey :=
  match getKey km keyId with
  | some k => some k
  | none => es.keys.find? (fun k => k.keyId == keyId)

/-- Modelled from the spec: `encrypt(plaintext, keyId, keyManagement)`. -/
def esEncrypt (es : ESState) (km : KMState) (plaintext keyId iv : String) :
    Except ESError EncryptedData :=
  match lookupKey es km keyId with
  | none => .error .keyNotFound
  | some key => .ok (encryptWithKey key plaintext iv)

/-- Modelled from the spec: `decrypt(envelope, keyId, keyManagement)`. -/
def esDecrypt (es : ESState) (km : KMState) (env : EncryptedData) (keyId : String) :
    Except ESError String :=
  match lookupKey es km keyId with
  | none => .error .keyNotFound
  | some key =>
    match decryptWithKey env key with
    | none => .error .decryptionFailed
    | some p => .ok p

/-- Modelled from the spec: the two-argument `encrypt(plaintext, keyId)` overload used by
`updateMemory`, which resolves the key against the service's own stored keys. -/
def esEncryptOwn (es : ESState) (plaintext keyId iv : String) :
    Except ESError EncryptedData :=
  match es.keys.find? (fun k => k.keyId == keyId) with
  | none => .error .keyNotFound
  | some key => .ok (encryptWithKey key plaintext iv)

/-- The fresh random key object built by `generateKeyPair` (modelled from the spec). -/
def mkKeyPairKey (freshKeyId freshMat now : String) : EncryptionKey :=
  { publicKey := freshMat, privateKey := freshMat, keyId := freshKeyId,
    algorithm := "AES-256-GCM", createdAt := now, salt := none }

/-- Modelled from the spec: `generateKeyPair()` — creates a fresh random key and stores
it in the service's own key list (`freshKeyId`/`freshMat` are the random values). -/
def generateKeyPair (es : ESState) (freshKeyId freshMat now : String) :
    EncryptionKey × ESState :=
  let k := mkKeyPairKey freshKeyId freshMat now
  (k, ⟨es.keys ++ [k]⟩)

/-! ## Envelope JSON serialization

The memory service stores `JSON.stringify(encryptedData)` as the record content and
re-parses it with `JSON.parse` before decryption.  `envToJson` reproduces the exact
serialized shape (fields in interface order); `parseEnvL` is its partial inverse,
accepting exactly that shape and rejecting other strings — which is how `JSON.parse`
plus the envelope field accesses behave on the strings this system produces. -/

/-- JSON form of a string value. -/
def jsonStr (s : String) : String := "\"" ++ jsonEscape s ++ "\""

/-- Comma-join of already-rendered JSON values. -/
def joinComma : List String → String
  | [] => ""
  | [x] => x
  | x :: xs => x ++ "," ++ joinComma xs

/-- JSON form of an array of string values. -/
def jsonStrArr (l : List String) : String := "[" ++ joinComma (l.map jsonStr) ++ "]"

/-- `JSON.stringify` of an `EncryptedData` envelope. -/
def envToJson (e : EncryptedData) : String :=
  "\x7b\"encryptedContent\":\"" ++ jsonEscape e.encryptedContent ++
  "\",\"iv\":\"" ++ jsonEscape e.iv ++
  "\",\"salt\":\"" ++ jsonEscape e.salt ++
  "\",\"tag\":\"" ++ jsonEscape e.tag ++
  "\",\"algorithm\":\"" ++ jsonEscape e.algorithm ++
  "\",\"keyDerivation\":\"" ++ jsonEscape e.keyDerivation ++
  "\",\"iterations\":" ++ toString e.iterations ++ "\x7d"

/-- Parser for the envelope JSON produced by `envToJson` (the behaviour of `JSON.parse`
followed by the envelope field reads, on this system's data). -/
def parseEnvL (s : List Char) : Option EncryptedData := do
  let s1 ← stripLeadL "\x7b\"encryptedContent\":\"".data s
  let (ec, s2) ← splitOnceL "\",\"iv\":\"".data s1
  let (iv, s3) ← splitOnceL "\",\"salt\":\"".data s2
  let (sa, s4) ← splitOnceL "\",\"tag\":\"".data s3
  let (tg, s5) ← splitOnceL "\",\"algorithm\":\"".data s4
  let (al, s6) ← splitOnceL "\",\"keyDerivation\":\"".data s5
  let (kd, s7) ← splitOnceL "\",\"iterations\":".data s6
  let (digits, rest) ← splitOnceL "\x7d".data s7
  if !rest.isEmpty then none
  else do
    let it ← parseNatL digits
    pure { encryptedContent := String.mk (jsonUnescapeL ec),
           iv := String.mk (jsonUnescapeL iv),
           salt := String.mk (jsonUnescapeL sa),
           tag := String.mk (jsonUnescapeL tg),
           algorithm := String.mk (jsonUnescapeL al),
           keyDerivation := String.mk (jsonUnescapeL kd),
           iterations := it }

/-- String-level envelope parsing (`JSON.parse` of a record's content). -/
def parseEnv (s : String) : Option EncryptedData := parseEnvL s.data

/-! ## Ledger Storage Adapter (`GolemStorageService` in `src/lib/memory-service.ts`)

The remote ledger (Golem Base) is an external key-value service; the embedding keeps
the owned entities as an insertion-ordered association list from entity key to stored
payload.  A payload is either an unrelated blob (the ledger may hold non-memory data)
or the `memoryData` object that `uploadMemory`/`updateMemory` serialize — stored in
structured form, with `renderMemoryData` giving its exact `JSON.stringify` text (used
for the transaction-size check); `retrieveMemory`'s `JSON.parse` + field validation
becomes a match on the structured payload. -/

/-- One stored ledger entity: an unrelated blob, or a serialized memory record plus the
optional transaction-hash/explorer-URL fields added by the post-upload entity update. -/
inductive EntityData
  | blob (raw : String)
  | memEnt (m : MemoryEntry) (txInfo : Option (String × String))
deriving DecidableEq, Repr

/-- State of `GolemStorageService`: client initialization flag, owned entities, the
locally tracked entity-key list, the single-writer transaction lock, and the cached
account nonce. -/
structure GolemState where
  client : Bool
  store : List (String × EntityData)
  entityKeys : List String
  txLock : Bool
  currentNonce : Option Int
deriving DecidableEq, Repr

/-- Lookup of an owned entity's payload by entity key. -/
def storeGet (store : List (String × EntityData)) (k : String) : Option EntityData :=
  (store.find? (fun p => p.1 == k)).map (fun p => p.2)

/-- Replace the payload stored under an entity key (no-op when the key is absent). -/
def storeSet (store : List (String × EntityData)) (k : String) (v : EntityData) :
    List (String × EntityData) :=
  store.map (fun p => if p.1 == k then (k, v) else p)

/-- Set-style insertion into the locally tracked entity-key list. -/
def addKey (l : List String) (k : String) : List String :=
  if l.contains k then l else l ++ [k]

/-- The owner address used for all records (`NEXT_PUBLIC_GOLEM_ADDRESS` fallback). -/
def defaultOwner : String := "0x68343Aa0598b7FCAA102769D172e59cdDfae10f2"

/-- The explorer base URL (`NEXT_PUBLIC_GOLEM_EXPLORER_URL` fallback). -/
def explorerBase : String := "https://explorer.ethwarsaw.holesky.golemdb.io"

/-- JSON rendering of a `Permission`. -/
def renderPermission (p : Permission) : String :=
  "\x7b\"agentId\":" ++ jsonStr p.agentId ++ ",\"actions\":" ++ jsonStrArr p.actions ++
  ",\"conditions\":" ++ jsonStrArr p.conditions ++ "\x7d"

/-- JSON rendering of an `AccessPolicy`. -/
def renderPolicy (ap : AccessPolicy) : String :=
  "\x7b\"owner\":" ++ jsonStr ap.owner ++ ",\"permissions\":[" ++
  joinComma (ap.permissions.map renderPermission) ++ "]\x7d"

/-- JSON rendering of a `MemoryMetadata` (optional fields omitted when `undefined`,
as `JSON.stringify` does). -/
def renderMetadata (md : MemoryMetadata) : String :=
  "\x7b\"size\":" ++ toString md.size ++
  ",\"mimeType\":" ++ jsonStr md.mimeType ++
  ",\"encoding\":" ++ jsonStr md.encoding ++
  ",\"checksum\":" ++ jsonStr md.checksum ++
  ",\"version\":" ++ toString md.version ++
  ",\"relatedMemories\":" ++ jsonStrArr md.relatedMemories ++
  (match md.encryptionKeyId with
   | some k => ",\"encryptionKeyId\":" ++ jsonStr k
   | none => "") ++
  (match md.encryptionSalt with
   | some s => ",\"encryptionSalt\":" ++ jsonStr s
   | none => "") ++ "\x7d"

/-- `JSON.stringify` of the `memoryData` object built in `uploadMemory`/`updateMemory`
(fields in construction order; `createdAt`/`updatedAt` already in ISO form), plus the
optional transaction-hash fields appended by the post-upload entity update. -/
def renderMemoryData (m : MemoryEntry) (txInfo : Option (String × String)) : String :=
  "\x7b\"id\":" ++ jsonStr m.id ++
  ",\"content\":" ++ jsonStr m.content ++
  ",\"type\":" ++ jsonStr (memTypeStr m.type) ++
  ",\"category\":" ++ jsonStr m.category ++
  ",\"tags\":" ++ jsonStrArr m.tags ++
  ",\"createdAt\":" ++ jsonStr m.createdAt ++
  ",\"updatedAt\":" ++ jsonStr m.updatedAt ++
  ",\"encrypted\":" ++ (if m.encrypted then "true" else "false") ++
  ",\"accessPolicy\":" ++ renderPolicy m.accessPolicy ++
  ",\"metadata\":" ++ renderMetadata m.metadata ++
  (match txInfo with
   | some (h, u) => ",\"transactionHash\":" ++ jsonStr h ++ ",\"explorerUrl\":" ++ jsonStr u
   | none => "") ++ "\x7d"

/-- `GolemStorageService.retrieveMemory`: entity-key validation, fetch, parse, and the
`!memoryData.id || !memoryData.content || !memoryData.accessPolicy` format check, then
conversion back to a `MemoryEntry` with the JS-falsy defaults (`category || 'general'`)
and the entity key recorded as `ipfsHash`. -/
def retrieveMemoryGolem (store : List (String × EntityData)) (entityKey : String) :
    Option MemoryEntry :=
  if entityKey = "" then none
  else
    match storeGet store entityKey with
    | none => none
    | some (.blob _) => none
    | some (.memEnt m _) =>
      if m.id = "" || m.content = "" then none
      else some { m with category := if m.category = "" then "general" else m.category,
                         ipfsHash := some entityKey }

/-- The owner filter and the substring query filter applied to one retrieved entity in
`GolemStorageService.searchMemories` (`query` falsy skips the filter; otherwise the
lowercased query must occur in the content or in some tag). -/
def tryMatchEntity (store : List (String × EntityData)) (query : String)
    (owner : Option String) (k : String) : Option MemoryEntry :=
  match retrieveMemoryGolem store k with
  | none => none
  | some m =>
    if (match owner with | some o => m.accessPolicy.owner != o | none => false) then none
    else if query != "" &&
        !(containsSub (lowerStr m.content) (lowerStr query) ||
          m.tags.any (fun t => containsSub (lowerStr t) (lowerStr query))) then none
    else some m

/-- The collection loop of `GolemStorageService.searchMemories`: push each matching
record and break once `memories.length >= limit`. -/
def golemSearchAux (store : List (String × EntityData)) (query : String)
    (owner : Option String) (limit : Nat) :
    List String → List MemoryEntry → List MemoryEntry
  | [], acc => acc
  | k :: rest, acc =>
    match tryMatchEntity store query owner k with
    | none => golemSearchAux store query owner limit rest acc
    | some m =>
      let acc2 := acc ++ [m]
      if limit ≤ acc2.length then acc2
      else golemSearchAux store query owner limit rest acc2

/-- `GolemStorageService.searchMemories(query, owner?, limit = 10)`: enumerate the
entity keys owned by the configured account (`getEntitiesOfOwner`) and filter
client-side.  A missing client throws, which every caller catches into `[]`. -/
def golemSearch (gs : GolemState) (query : String) (owner : Option String)
    (limit : Nat := 10) : List MemoryEntry :=
  if gs.client = false then []
  else golemSearchAux gs.store query owner limit (gs.store.map (fun p => p.1)) []

/-- Result of `GolemStorageService.uploadMemory`. -/
structure GolemUploadResult where
  entityKey : String
  size : Nat
  transactionHash : Option String
deriving DecidableEq, Repr

/-- Errors thrown by `GolemStorageService.uploadMemory`. -/
inductive UploadError
  | clientNotInitialized
  | txTooLarge (size : Nat)
  | sendFailed
deriving DecidableEq, Repr

/-- Remote-call outcomes for one `uploadMemory` invocation: the nonce reported by
`eth_getTransactionCount` (`getCurrentNonce` returns 0 on failure rather than
throwing), the `sendTransaction` outcome (entity key and the tx hash delivered via
`txHashCallback`, or a thrown error), and whether the post-upload entity update that
records the hash succeeds (its failure is caught and ignored). -/
structure UploadOutcome where
  fetchedNonce : Int
  sendResult : Option (String × Option String)
  hashUpdateOk : Bool
deriving DecidableEq, Repr

/-- `GolemStorageService.uploadMemory`.  The connectivity test
(`testRpcConnectionWithRetry`) swallows its own failures, so it has no outcome here.
The busy-wait acquisition of the single-writer `txLock` sets the flag; release happens
on every exit path of the `try`/`finally` (the `finally` block).  The missing-client
throw occurs before the lock is touched. -/
def uploadMemoryG (gs : GolemState) (o : UploadOutcome) (mem : MemoryEntry) :
    Except UploadError GolemUploadResult × GolemState :=
  if gs.client = false then (.error .clientNotInitialized, gs)
  else
    let gs1 := { gs with txLock := true }
    let n0 : Int :=
      match gs1.currentNonce with
      | some n => if n < o.fetchedNonce then o.fetchedNonce else n
      | none => o.fetchedNonce
    let gs2 := { gs1 with currentNonce := some (n0 + 1) }
    let json := renderMemoryData mem none
    let txSize := 2 * utf8Len json + 2
    if 200000 < txSize then (.error (.txTooLarge txSize), { gs2 with txLock := false })
    else
      match o.sendResult with
      | none => (.error .sendFailed, { gs2 with txLock := false })
      | some (ek, txh) =>
        let stored : EntityData :=
          match txh with
          | some h =>
            if o.hashUpdateOk then .memEnt mem (some (h, explorerBase ++ "/tx/" ++ h))
            else .memEnt mem none
          | none => .memEnt mem none
        let gs3 : GolemState :=
          { gs2 with
            store := gs2.store ++ [(ek, stored)]
            entityKeys := addKey gs2.entityKeys ek
            txLock := false }
        (.ok { entityKey := ek, size := utf8Len json, transactionHash := txh }, gs3)

/-- `GolemStorageService.updateMemory(entityKey, updatedMemory)`: re-serialize and
update the same entity in place via `updateEntities` (no transaction-size check on this
path); a failed remote update is rethrown as an error with the store unchanged. -/
def updateMemoryG (gs : GolemState) (updOk : Bool) (entityKey : String)
    (mem : MemoryEntry) : Except Unit GolemUploadResult × GolemState :=
  if gs.client = false then (.error (), gs)
  else
    let json := renderMemoryData mem none
    if updOk then
      (.ok { entityKey := entityKey, size := utf8Len json, transactionHash := none },
       { gs with store := storeSet gs.store entityKey (.memEnt mem none) })
    else (.error (), gs)

/-- `GolemStorageService.deleteMemory(entityKey)`: the local tracking entry is removed
before the remote `deleteEntities` call, so it is gone even when the remote delete
fails (which yields `false`, not an exception). -/
def deleteMemoryG (gs : GolemState) (delOk : Bool) (entityKey : String) :
    Bool × GolemState :=
  if gs.client = false then (false, gs)
  else
    let gs1 := { gs with entityKeys := gs.entityKeys.filter (fun k => k != entityKey) }
    if delOk then
      (true, { gs1 with store := gs1.store.filter (fun p => p.1 != entityKey) })
    else (false, gs1)

/-! ## Memory Service orchestrator (`MemoryService` in `src/lib/memory-service.ts`) -/

/-- Combined state of the orchestrator's collaborators. -/
structure SysState where
  km : KMState
  es : ESState
  golem : GolemState
deriving DecidableEq, Repr

/-- `MemoryService.generateChecksum`: one step of the 31-multiplier rolling hash
`hash = ((hash << 5) - hash + char) & hash`, tracked as the unsigned 32-bit bit
pattern of the JS int32 accumulator: for the signed value s of the bits u,
`toInt32(s * 32) - s + c ≡ 31·s + c ≡ 31·u + c (mod 2^32)`
and the final `&` keeps exactly these bits, so the bit pattern evolves as
`(31·u + c) mod 2^32`. -/
def checksumStep (u : Nat) (c : Nat) : Nat := (31 * u + c) % 4294967296

/-- The signed-magnitude view of an unsigned 32-bit pattern (JS `Math.abs(hash)` for
the int32 whose bits are `u`). -/
def absInt32 (u : Nat) : Nat := if u < 2147483648 then u else 4294967296 - u

/-- String-level checksum (`generateChecksum`, also `generateMemoryHash` — the two are
identical in the source): the rolling hash over the char codes, rendered as
`Math.abs(hash).toString(16)`. -/
def generateChecksum (s : String) : String :=
  natToHex (absInt32 (s.data.foldl (fun h c => checksumStep h c.toNat) 0))

/-- `MemorySearchQuery` from `src/types/memory.ts` (fields used by the service). -/
structure MemorySearchQuery where
  query : String
  type : Option MemoryType := none
  category : Option String := none
  tags : Option (List String) := none
  dateRange : Option (String × String) := none
  limit : Option Nat := none
  offset : Option Nat := none
deriving DecidableEq, Repr

/-- Facet counters of a `MemorySearchResult`. -/
structure Facets where
  types : MemoryType → Nat
  categories : List (String × Nat)
  tags : List (String × Nat)

/-- The all-zero facet object literal that `MemoryService.searchMemories` returns. -/
def zeroFacets : Facets := ⟨fun _ => 0, [], []⟩

/-- `MemorySearchResult` from `src/types/memory.ts`. -/
structure MemorySearchResult where
  memories : List MemoryEntry
  totalCount : Nat
  facets : Facets

/-- The `if (query.type)` filter block shared by `searchMemoriesDirect` and
`searchMemories`. -/
def filterByType (t? : Option MemoryType) (ms : List MemoryEntry) : List MemoryEntry :=
  match t? with
  | some t => ms.filter (fun m => m.type == t)
  | none => ms

/-- The `if (query.category)` filter of `searchMemoriesDirect` (strict equality;
an empty category string is JS-falsy and skips the filter). -/
def filterByCategoryExact (c? : Option String) (ms : List MemoryEntry) :
    List MemoryEntry :=
  match c? with
  | some c => if c = "" then ms else ms.filter (fun m => m.category == c)
  | none => ms

/-- The `query.tags && query.tags.length > 0` filter block. -/
def filterByTags (ts? : Option (List String)) (ms : List MemoryEntry) :
    List MemoryEntry :=
  match ts? with
  | some ts => if ts.isEmpty then ms
               else ms.filter (fun m => ts.any (fun t => m.tags.contains t))
  | none => ms

/-- The `if (query.dateRange)` filter block (`createdAt` within the closed range;
ISO strings compare lexicographically). -/
def filterByDateRange (r? : Option (String × String)) (ms : List MemoryEntry) :
    List MemoryEntry :=
  match r? with
  | some (s, e) => ms.filter (fun m => strLeB s m.createdAt && strLeB m.createdAt e)
  | none => ms

/-- The `if (query.limit)` slice block (`slice(offset, offset + limit)`; `limit = 0`
is JS-falsy and skips the slice). -/
def applyLimitOffset (limit? offset? : Option Nat) (ms : List MemoryEntry) :
    List MemoryEntry :=
  match limit? with
  | some l => if l = 0 then ms else (ms.drop (offset?.getD 0)).take l
  | none => ms

/-- `MemoryService.searchMemoriesDirect`: adapter search with the orchestrator's
default (no explicit limit, so the adapter's `limit = 10` applies), followed by the
in-process type / category (strict equality here) / tags / date-range filters and the
`limit`/`offset` slice guarded by JS truthiness of `query.limit`. -/
def searchMemoriesDirect (st : SysState) (q : MemorySearchQuery) : List MemoryEntry :=
  applyLimitOffset q.limit q.offset
    (filterByDateRange q.dateRange
      (filterByTags q.tags
        (filterByCategoryExact q.category
          (filterByType q.type (golemSearch st.golem q.query none 10)))))

/-- The `if (query.category)` filter of `searchMemories` (lower-cased substring
containment, unlike the strict equality in `searchMemoriesDirect`). -/
def filterByCategoryLoose (c? : Option String) (ms : List MemoryEntry) :
    List MemoryEntry :=
  match c? with
  | some c => if c = "" then ms
              else ms.filter (fun m => containsSub (lowerStr m.category) (lowerStr c))
  | none => ms

/-- `MemoryService.searchMemories`: a second pass of type / category / tags filters
over `searchMemoriesDirect`, then the result object with `totalCount` and the
hard-coded all-zero facets. -/
def searchMemoriesService (st : SysState) (q : MemorySearchQuery) : MemorySearchResult :=
  let ms := filterByTags q.tags
              (filterByCategoryLoose q.category
                (filterByType q.type (searchMemoriesDirect st q)))
  ⟨ms, ms.length, zeroFacets⟩

/-- The query object `getMemory`/`deleteMemory` pass to `searchMemoriesDirect`:
`{ query: memoryId, type: undefined }`. -/
def idQuery (memoryId : String) : MemorySearchQuery := { query := memoryId }

/-- Parameters of `MemoryService.createMemory`. -/
structure CreateParams where
  content : String
  type : MemoryType
  category : String
  tags : List String := []
  permissions : List Permission := []
  encrypted : Bool := true
deriving DecidableEq, Repr

/-- Per-call fresh values and remote outcomes for `createMemory`: the generated UUID,
the random salt and IV, the current time, and the upload outcome. -/
structure CreateEnv where
  uuid : String
  freshSalt : String
  iv : String
  now : String
  upload : UploadOutcome
deriving DecidableEq, Repr

/-- Errors thrown by `MemoryService.createMemory`. -/
inductive CreateError
  | keyManagementNotInit
  | encryptKeyNotFound
  | creationFailed (e : UploadError)
deriving DecidableEq, Repr

/-- The `MAX_CONTENT_SIZE` truncation in `createMemory`: content longer than 10000
code units is cut to 9900 and the visible `...[TRUNCATED]` marker is appended. -/
def truncateContent (s : String) : String :=
  if 10000 < s.length then String.mk (s.data.take 9900) ++ "...[TRUNCATED]" else s

/-- The record-assembly phase of `MemoryService.createMemory` (everything before the
adapter upload): access policy construction, optional encryption with a fresh
per-record key (failing fast when key management is uninitialized), content
truncation, and the `MemoryEntry` literal with checksum, `size`, `version := 1` and
the encryption key id / salt recorded in metadata. -/
def buildMemory (sha256Hex : String → String) (km : KMState) (es : ESState)
    (p : CreateParams) (env : CreateEnv) : Except CreateError (MemoryEntry × KMState) :=
  let policy : AccessPolicy := ⟨defaultOwner, p.permissions⟩
  let encStep : Except CreateError (String × Option String × Option String × KMState) :=
    if p.encrypted then
      if isInitialized km = false then .error .keyManagementNotInit
      else
        match generateMemoryKey sha256Hex km env.freshSalt env.now env.uuid none with
        | .error _ => .error .keyManagementNotInit
        | .ok (ek, km2) =>
          match esEncrypt es km2 p.content ek.keyId env.iv with
          | .error _ => .error .encryptKeyNotFound
          | .ok envlp => .ok (envToJson envlp, some ek.keyId, ek.salt, km2)
    else .ok (p.content, none, none, km)
  match encStep with
  | .error e => .error e
  | .ok (ec0, kid, ks, km2) =>
    let ec := truncateContent ec0
    .ok ({ id := env.uuid, content := ec, type := p.type, category := p.category,
           tags := p.tags, createdAt := env.now, updatedAt := env.now,
           encrypted := p.encrypted, accessPolicy := policy,
           metadata := { size := ec.length, mimeType := "text/plain",
                         encoding := "utf-8", checksum := generateChecksum ec,
                         version := 1, relatedMemories := [],
                         encryptionKeyId := kid, encryptionSalt := ks },
           ipfsHash := none }, km2)

/-- `MemoryService.createMemory`: assemble the record, upload it, stamp the returned
entity key, and wrap adapter failures (`Memory creation failed: ...`); the session-key
cache mutation persists even when the upload throws. -/
def createMemory (sha256Hex : String → String) (st : SysState) (env : CreateEnv)
    (p : CreateParams) : Except CreateError MemoryEntry × SysState :=
  match buildMemory sha256Hex st.km st.es p env with
  | .error e => (.error e, st)
  | .ok (mem, km2) =>
    match uploadMemoryG st.golem env.upload mem with
    | (.ok r, gs2) =>
      (.ok { mem with ipfsHash := some r.entityKey }, { st with km := km2, golem := gs2 })
    | (.error e, gs2) =>
      (.error (.creationFailed e), { st with km := km2, golem := gs2 })

/-- One `JSON.parse` + `decrypt` attempt as performed inside `getMemory`'s try blocks:
the result is `none` when parsing or decryption throws. -/
def tryParseDecrypt (es : ESState) (km : KMState) (content keyId : String) :
    Option String :=
  match parseEnv content with
  | none => none
  | some env =>
    match esDecrypt es km env keyId with
    | .ok p => some p
    | .error _ => none

/-- The key-regeneration attempt of `getMemory` (strategy 2): derive the key again from
the master password and the stored salt, then parse and decrypt.  The regenerated key
stays cached in the returned key-management state even when decryption fails. -/
def regenAttempt (sha256Hex : String → String) (es : ESState) (km : KMState)
    (freshSalt now memoryId : String) (storedSalt : Option String) (content : String) :
    Option String × KMState :=
  match generateMemoryKey sha256Hex km freshSalt now memoryId storedSalt with
  | .error _ => (none, km)
  | .ok (rk, km2) => (tryParseDecrypt es km2 content rk.keyId, km2)

/-- `MemoryService.tryFallbackDecryption`: iterate the encryption service's stored keys
(oldest first), returning the first successful decryption. -/
def fallbackDecrypt (es : ESState) (km : KMState) (content : String) : Option String :=
  (es.keys.map (fun k => tryParseDecrypt es km content k.keyId)).foldr
    (fun o acc => match o with | some p => some p | none => acc) none

/-- The decryption phase of `MemoryService.getMemory` on a found encrypted record:
strategy 1 (cached key id, whose failures hit the outer catch and leave the content
as-is), strategy 2 (salt-based regeneration), strategy 3 (fallback key iteration);
every failure path returns the record with its ciphertext content unchanged — the
function is total, no error escapes. -/
def decryptStage (sha256Hex : String → String) (es : ESState) (km : KMState)
    (freshSalt now memoryId : String) (memory : MemoryEntry) : MemoryEntry × KMState :=
  if isInitialized km = false then (memory, km)
  else
    let ra := regenAttempt sha256Hex es km freshSalt now memoryId
                memory.metadata.encryptionSalt memory.content
    let regenOrFallback : MemoryEntry × KMState :=
      match ra.1 with
      | some p => ({ memory with content := p }, ra.2)
      | none =>
        match fallbackDecrypt es ra.2 memory.content with
        | some p => ({ memory with content := p }, ra.2)
        | none => (memory, ra.2)
    if jsTruthyStr memory.metadata.encryptionKeyId then
      match getKey km (memory.metadata.encryptionKeyId.getD "") with
      | some _ =>
        match tryParseDecrypt es km memory.content (memory.metadata.encryptionKeyId.getD "") with
        | some p => ({ memory with content := p }, km)
        | none => (memory, km)
      | none => regenOrFallback
    else regenOrFallback

/-- `MemoryService.getMemory`: locate the record by passing the id as the adapter's
substring query, pick the entry whose `id` matches, then run the decryption fallback
chain; `null` when nothing matches. -/
def getMemory (sha256Hex : String → String) (st : SysState)
    (freshSalt now memoryId : String) : Option MemoryEntry × SysState :=
  match (searchMemoriesDirect st (idQuery memoryId)).find? (fun m => m.id == memoryId) with
  | none => (none, st)
  | some m =>
    if m.encrypted then
      let p := decryptStage sha256Hex st.es st.km freshSalt now memoryId m
      (some p.1, { st with km := p.2 })
    else (some m, st)

/-- The updatable fields of `MemoryService.updateMemory`. -/
structure UpdateFields where
  content : Option String := none
  category : Option String := none
  tags : Option (List String) := none
  accessPolicy : Option AccessPolicy := none
deriving DecidableEq, Repr

/-- Per-call fresh values and outcomes for `updateMemory`: values consumed by the
inner `getMemory`, the current time, the fresh key-pair material used when content is
re-encrypted, and the remote update outcome. -/
structure UpdateEnv where
  freshSalt : String
  now : String
  keyPairId : String
  keyPairMat : String
  iv : String
  updOk : Bool
deriving DecidableEq, Repr

/-- Errors thrown by `MemoryService.updateMemory`. -/
inductive UpdateError
  | notFound
  | reencryptFailed
  | updateFailed
deriving DecidableEq, Repr

/-- The tail of `MemoryService.updateMemory`: write the updated record through the
adapter and stamp the returned entity key, or rethrow the adapter failure. -/
def finishUpdate (st1 : SysState) (es2 : ESState) (updOk : Bool)
    (ex updated2 : MemoryEntry) : Except UpdateError MemoryEntry × SysState :=
  match updateMemoryG st1.golem updOk (ex.ipfsHash.getD "") updated2 with
  | (.ok r, gs2) =>
    (.ok { updated2 with ipfsHash := some r.entityKey },
     { st1 with es := es2, golem := gs2 })
  | (.error _, gs2) => (.error .updateFailed, { st1 with es := es2, golem := gs2 })

/-- `MemoryService.updateMemory`: fetch through `getMemory` (decrypting first), apply
the field updates, bump `metadata.version` by one, re-encrypt with a fresh key pair
only when `content` was part of the update, then write via the adapter. -/
def updateMemoryService (sha256Hex : String → String) (st : SysState) (env : UpdateEnv)
    (memoryId : String) (u : UpdateFields) : Except UpdateError MemoryEntry × SysState :=
  match getMemory sha256Hex st env.freshSalt env.now memoryId with
  | (none, st1) => (.error .notFound, st1)
  | (some ex, st1) =>
    let updated : MemoryEntry :=
      { ex with content := u.content.getD ex.content,
                category := u.category.getD ex.category,
                tags := u.tags.getD ex.tags,
                accessPolicy := u.accessPolicy.getD ex.accessPolicy,
                updatedAt := env.now,
                metadata := { ex.metadata with version := ex.metadata.version + 1 } }
    match u.content with
    | some c =>
      let pr := generateKeyPair st1.es env.keyPairId env.keyPairMat env.now
      match esEncryptOwn pr.2 c pr.1.keyId env.iv with
      | .error _ => (.error .reencryptFailed, { st1 with es := pr.2 })
      | .ok envlp =>
        finishUpdate st1 pr.2 env.updOk ex
          { updated with content := envToJson envlp, encrypted := true }
    | none => finishUpdate st1 st1.es env.updOk ex updated

/-- `MemoryService.deleteMemory`: locate by the id-substring search; `false` when not
found; otherwise delegate to the adapter delete. -/
def deleteMemoryService (st : SysState) (delOk : Bool)
    (memoryId : String) : Bool × SysState :=
  match (searchMemoriesDirect st (idQuery memoryId)).find? (fun m => m.id == memoryId) with
  | none => (false, st)
  | some m =>
    let r := deleteMemoryG st.golem delOk (m.ipfsHash.getD "")
    (r.1, { st with golem := r.2 })

/-! ## The single-writer lock as a two-writer transition system

`acquireTxLock` busy-waits on the boolean `txLock` flag and then sets it; in the
JavaScript event loop the final check and the assignment run in one synchronous
segment, so acquisition is an atomic test-and-set.  `releaseTxLock` clears the flag in
the `finally` block.  The automaton below models two concurrent `uploadMemory` callers
interleaving these atomic steps; `critical` is the window between acquisition and the
guaranteed release, i.e. an in-flight write submission. -/

/-- Program counter of one writer. -/
inductive WriterPc
  | idle
  | waiting
  | critical
  | done
deriving DecidableEq, Repr

/-- Joint state of the lock flag and two writers. -/
structure LockSys where
  lock : Bool
  pc1 : WriterPc
  pc2 : WriterPc
deriving DecidableEq, Repr

/-- Atomic steps of the two writers against the busy-flag lock. -/
inductive LockStep : LockSys → LockSys → Prop
  | start1 (s : LockSys) : s.pc1 = .idle → LockStep s { s with pc1 := .waiting }
  | acquire1 (s : LockSys) : s.pc1 = .waiting → s.lock = false →
      LockStep s { s with lock := true, pc1 := .critical }
  | release1 (s : LockSys) : s.pc1 = .critical →
      LockStep s { s with lock := false, pc1 := .done }
  | start2 (s : LockSys) : s.pc2 = .idle → LockStep s { s with pc2 := .waiting }
  | acquire2 (s : LockSys) : s.pc2 = .waiting → s.lock = false →
      LockStep s { s with lock := true, pc2 := .critical }
  | release2 (s : LockSys) : s.pc2 = .critical →
      LockStep s { s with lock := false, pc2 := .done }

/-- Initial state: lock free, both writers idle. -/
def lockInit : LockSys := ⟨false, .idle, .idle⟩

/-- Reachable states of the two-writer system. -/
inductive LockReach : LockSys → Prop
  | init : LockReach lockInit
  | step {s s' : LockSys} : LockReach s → LockStep s s' → LockReach s'

/-! ## Concrete fixtures used by the evaluation theorems and witnesses -/

/-- A concrete digest function standing in for SHA-256 in evaluations (any function can
be substituted; like a real digest, its output does not contain input substrings). -/
def lenHash : String → String := fun s => toString s.length

/-- Key management state right after `initializeWithPassword("pw")`. -/
def km0 : KMState := initializeWithPassword "pw" ⟨none, []⟩

/-- Empty encryption-service key store. -/
def es0 : ESState := ⟨[]⟩

/-- Freshly initialized adapter with no owned entities. -/
def gs0 : GolemState :=
  { client := true, store := [], entityKeys := [], txLock := false, currentNonce := none }

/-- Initial system state for the scenarios. -/
def st0 : SysState := ⟨km0, es0, gs0⟩

/-- The UUID generated for the scenario record. -/
def uuid1 : String := "11111111-2222-3333-4444-555555555555"

/-- A successful upload outcome assigning the given entity key, with no tx hash. -/
def okUpload (ek : String) : UploadOutcome :=
  { fetchedNonce := 0, sendResult := some (ek, none), hashUpdateOk := true }

/-- Fresh values for the scenario creation call. -/
def env1 : CreateEnv :=
  { uuid := uuid1, freshSalt := "a1b2c3", iv := "0a0b",
    now := "2024-01-01T00:00:00.000Z", upload := okUpload "0xabc" }

/-- The create-and-retrieve scenario parameters
(`createMemory("hello world", "conversation", "test", [], undefined, true)`). -/
def p1 : CreateParams :=
  { content := "hello world", type := .conversation, category := "test",
    tags := [], permissions := [], encrypted := true }

/-- The scenario creation call. -/
def c1run : Except CreateError MemoryEntry × SysState := createMemory lenHash st0 env1 p1

def c1key : EncryptionKey :=
  { publicKey := "8", privateKey := "8", keyId := "memory_" ++ uuid1,
    algorithm := "AES-256-GCM", createdAt := "2024-01-01T00:00:00.000Z",
    salt := some "a1b2c3" }

def c1mem : MemoryEntry :=
  { id := uuid1,
    content := "\x7b\"encryptedContent\":\"h.e.l.l.o. .w.o.r.l.d.\",\"iv\":\"0a0b\",\"salt\":\"a1b2c3\",\"tag\":\"tag_8\",\"algorithm\":\"AES-256-GCM\",\"keyDerivation\":\"PBKDF2\",\"iterations\":100000\x7d",
    type := .conversation, category := "test", tags := [],
    createdAt := "2024-01-01T00:00:00.000Z", updatedAt := "2024-01-01T00:00:00.000Z",
    encrypted := true,
    accessPolicy := { owner := defaultOwner, permissions := [] },
    metadata := { size := 158, mimeType := "text/plain", encoding := "utf-8",
                  checksum := "6acec54a", version := 1, relatedMemories := [],
                  encryptionKeyId := some ("memory_" ++ uuid1),
                  encryptionSalt := some "a1b2c3" },
    ipfsHash := none }

def km1 : KMState := { masterKey := some "pw", sessionKeys := [("memory_" ++ uuid1, c1key)] }

def gs1 : GolemState :=
  { client := true, store := [("0xabc", .memEnt c1mem none)],
    entityKeys := ["0xabc"], txLock := false, currentNonce := some 1 }

def st1 : SysState := ⟨km1, es0, gs1⟩

theorem c1build_eq : buildMemory lenHash km0 es0 p1 env1 = .ok (c1mem, km1) := rfl

theorem c1upload_eq : uploadMemoryG gs0 (okUpload "0xabc") c1mem =
    (.ok ⟨"0xabc", utf8Len (renderMemoryData c1mem none), none⟩, gs1) := rfl

theorem c1run_eq : c1run = (.ok { c1mem with ipfsHash := some "0xabc" }, st1) := by
  show createMemory lenHash st0 env1 p1 = _
  simp only [createMemory, show st0.km = km0 from rfl, show st0.es = es0 from rfl,
    show st0.golem = gs0 from rfl, show env1.upload = okUpload "0xabc" from rfl,
    c1build_eq, c1upload_eq]
  rfl

theorem c1get_none : (getMemory lenHash st1 "f2" "2024-01-02T00:00:00.000Z" uuid1).1 = none := rfl

theorem c7regen :
    ((retrieveMemoryGolem gs1.store "0xabc").map
      (fun m => (decryptStage lenHash es0 km0 "f3" "t3" uuid1 m).1.content)) =
    some "hello world" := rfl

/-! C8 fixtures -/

def p8a : CreateParams :=
  { content := "alpha note", type := .conversation, category := "test",
    tags := [], permissions := [], encrypted := false }

def p8b : CreateParams :=
  { content := "beta fact", type := .learned_fact, category := "test",
    tags := [], permissions := [], encrypted := false }

def p8c : CreateParams :=
  { content := "gamma fact", type := .learned_fact, category := "test",
    tags := [], permissions := [], encrypted := false }

def env8a : CreateEnv :=
  { uuid := "aaaa0001", freshSalt := "s1", iv := "i1",
    now := "2024-01-01T00:00:01.000Z", upload := okUpload "0xa1" }

def env8b : CreateEnv :=
  { uuid := "aaaa0002", freshSalt := "s2", iv := "i2",
    now := "2024-01-01T00:00:02.000Z", upload := okUpload "0xa2" }

def env8c : CreateEnv :=
  { uuid := "aaaa0003", freshSalt := "s3", iv := "i3",
    now := "2024-01-01T00:00:03.000Z", upload := okUpload "0xa3" }

def c8m1 : MemoryEntry :=
  { id := "aaaa0001", content := "alpha note", type := .conversation, category := "test",
    tags := [], createdAt := "2024-01-01T00:00:01.000Z",
    updatedAt := "2024-01-01T00:00:01.000Z", encrypted := false,
    accessPolicy := { owner := defaultOwner, permissions := [] },
    metadata := { size := 10, mimeType := "text/plain", encoding := "utf-8",
                  checksum := "4bc4e68c", version := 1, relatedMemories := [],
                  encryptionKeyId := none, encryptionSalt := none },
    ipfsHash := none }

def c8m2 : MemoryEntry :=
  { id := "aaaa0002", content := "beta fact", type := .learned_fact, category := "test",
    tags := [], createdAt := "2024-01-01T00:00:02.000Z",
    updatedAt := "2024-01-01T00:00:02.000Z", encrypted := false,
    accessPolicy := { owner := defaultOwner, permissions := [] },
    metadata := { size := 9, mimeType := "text/plain", encoding := "utf-8",
                  checksum := "5dd4e69c", version := 1, relatedMemories := [],
                  encryptionKeyId := none, encryptionSalt := none },
    ipfsHash := none }

def c8m3 : MemoryEntry :=
  { id := "aaaa0003", content := "gamma fact", type := .learned_fact, category := "test",
    tags := [], createdAt := "2024-01-01T00:00:03.000Z",
    updatedAt := "2024-01-01T00:00:03.000Z", encrypted := false,
    accessPolicy := { owner := defaultOwner, permissions := [] },
    metadata := { size := 10, mimeType := "text/plain", encoding := "utf-8",
                  checksum := "20253cbb", version := 1, relatedMemories := [],
                  encryptionKeyId := none, encryptionSalt := none },
    ipfsHash := none }

def gs8a : GolemState :=
  { client := true, store := [("0xa1", .memEnt c8m1 none)],
    entityKeys := ["0xa1"], txLock := false, currentNonce := some 1 }

def gs8b : GolemState :=
  { client := true, store := [("0xa1", .memEnt c8m1 none), ("0xa2", .memEnt c8m2 none)],
    entityKeys := ["0xa1", "0xa2"], txLock := false, currentNonce := some 2 }

def gs8c : GolemState :=
  { client := true,
    store := [("0xa1", .memEnt c8m1 none), ("0xa2", .memEnt c8m2 none),
              ("0xa3", .memEnt c8m3 none)],
    entityKeys := ["0xa1", "0xa2", "0xa3"], txLock := false, currentNonce := some 3 }

def st8a : SysState := ⟨km0, es0, gs8a⟩
def st8b : SysState := ⟨km0, es0, gs8b⟩
def st8 : SysState := ⟨km0, es0, gs8c⟩

theorem c8r1_eq : createMemory lenHash st0 env8a p8a =
    (.ok { c8m1 with ipfsHash := some "0xa1" }, st8a) := by
  simp only [createMemory, show st0.km = km0 from rfl, show st0.es = es0 from rfl,
    show st0.golem = gs0 from rfl, show env8a.upload = okUpload "0xa1" from rfl,
    show buildMemory lenHash km0 es0 p8a env8a = .ok (c8m1, km0) from rfl,
    show uploadMemoryG gs0 (okUpload "0xa1") c8m1 =
      (.ok ⟨"0xa1", utf8Len (renderMemoryData c8m1 none), none⟩, gs8a) from rfl]
  rfl

theorem c8r2_eq : createMemory lenHash st8a env8b p8b =
    (.ok { c8m2 with ipfsHash := some "0xa2" }, st8b) := by
  simp only [createMemory, show st8a.km = km0 from rfl, show st8a.es = es0 from rfl,
    show st8a.golem = gs8a from rfl, show env8b.upload = okUpload "0xa2" from rfl,
    show buildMemory lenHash km0 es0 p8b env8b = .ok (c8m2, km0) from rfl,
    show uploadMemoryG gs8a (okUpload "0xa2") c8m2 =
      (.ok ⟨"0xa2", utf8Len (renderMemoryData c8m2 none), none⟩, gs8b) from rfl]
  rfl

theorem c8r3_eq : createMemory lenHash st8b env8c p8c =
    (.ok { c8m3 with ipfsHash := some "0xa3" }, st8) := by
  simp only [createMemory, show st8b.km = km0 from rfl, show st8b.es = es0 from rfl,
    show st8b.golem = gs8b from rfl, show env8c.upload = okUpload "0xa3" from rfl,
    show buildMemory lenHash km0 es0 p8c env8c = .ok (c8m3, km0) from rfl,
    show uploadMemoryG gs8b (okUpload "0xa3") c8m3 =
      (.ok ⟨"0xa3", utf8Len (renderMemoryData c8m3 none), none⟩, gs8c) from rfl]
  rfl

/-- The C8 scenario query: empty text, type filter `learned_fact`. -/
def q8 : MemorySearchQuery := { query := "", type := some .learned_fact }

/-! Fixtures for the remaining claims. -/

/-- C2 witness record: an encrypted record whose content is a garbled (unparsable)
ciphertext that happens to contain its own id, so the id-substring search finds it;
its key id is not cached and its salt-derived key cannot decrypt the garbled text. -/
def c2mem : MemoryEntry :=
  { id := "m2c", content := "m2c garbled ciphertext", type := .conversation,
    category := "misc", tags := [], createdAt := "2024-01-05T00:00:00.000Z",
    updatedAt := "2024-01-05T00:00:00.000Z", encrypted := true,
    accessPolicy := { owner := defaultOwner, permissions := [] },
    metadata := { size := 22, mimeType := "text/plain", encoding := "utf-8",
                  checksum := "0", version := 1, relatedMemories := [],
                  encryptionKeyId := some "memory_m2c",
                  encryptionSalt := some "s2c" },
    ipfsHash := none }

/-- The C2 record as the adapter returns it (entity key stamped). -/
def c2found : MemoryEntry := { c2mem with ipfsHash := some "0xc1" }

/-- System state holding the C2 record. -/
def st2w : SysState :=
  ⟨km0, es0,
   { client := true, store := [("0xc1", .memEnt c2mem none)],
     entityKeys := ["0xc1"], txLock := false, currentNonce := none }⟩

/-- C4 witness record: an unencrypted record whose content contains its own id
(so `getMemory` can find it), at version 1. -/
def c4mem : MemoryEntry :=
  { id := "m4", content := "m4 notes", type := .user_preference,
    category := "prefs", tags := [], createdAt := "2024-01-07T00:00:00.000Z",
    updatedAt := "2024-01-07T00:00:00.000Z", encrypted := false,
    accessPolicy := { owner := defaultOwner, permissions := [] },
    metadata := { size := 8, mimeType := "text/plain", encoding := "utf-8",
                  checksum := "0", version := 1, relatedMemories := [],
                  encryptionKeyId := none, encryptionSalt := none },
    ipfsHash := none }

/-- The C4 record as the adapter returns it. -/
def c4found : MemoryEntry := { c4mem with ipfsHash := some "0xd1" }

/-- System state holding the C4 record. -/
def st4 : SysState :=
  ⟨km0, es0,
   { client := true, store := [("0xd1", .memEnt c4mem none)],
     entityKeys := ["0xd1"], txLock := false, currentNonce := none }⟩

/-- Update environment for the C4 witness (successful adapter write). -/
def env4 : UpdateEnv :=
  { freshSalt := "fs4", now := "2024-02-02T00:00:00.000Z", keyPairId := "kp4",
    keyPairMat := "mat4", iv := "iv4", updOk := true }

/-- The C4 witness update: category only, no content re-encryption. -/
def upd4 : UpdateFields := { category := some "prefs-updated" }

/-- C10 record: a valid memory record stored as the eleventh owned entity, behind ten
non-memory blobs. -/
def recX : MemoryEntry :=
  { id := "x11", content := "notes for x11", type := .conversation,
    category := "general", tags := [], createdAt := "2024-01-09T00:00:00.000Z",
    updatedAt := "2024-01-09T00:00:00.000Z", encrypted := false,
    accessPolicy := { owner := defaultOwner, permissions := [] },
    metadata := { size := 13, mimeType := "text/plain", encoding := "utf-8",
                  checksum := "0", version := 1, relatedMemories := [],
                  encryptionKeyId := none, encryptionSalt := none },
    ipfsHash := none }

/-- Adapter state with ten non-memory entities followed by `recX`. -/
def gs10 : GolemState :=
  { client := true,
    store := [("0xb1", .blob "junk-1"), ("0xb2", .blob "junk-2"),
              ("0xb3", .blob "junk-3"), ("0xb4", .blob "junk-4"),
              ("0xb5", .blob "junk-5"), ("0xb6", .blob "junk-6"),
              ("0xb7", .blob "junk-7"), ("0xb8", .blob "junk-8"),
              ("0xb9", .blob "junk-9"), ("0xb10", .blob "junk-10"),
              ("0xb11", .memEnt recX none)],
    entityKeys := ["0xb1", "0xb2", "0xb3", "0xb4", "0xb5", "0xb6", "0xb7", "0xb8",
                   "0xb9", "0xb10", "0xb11"],
    txLock := false, currentNonce := none }

/-- System state for the C10 counterexample. -/
def st10 : SysState := ⟨km0, es0, gs10⟩

/-- C6 counterexample category: 120000 characters. -/
def bigCat : String := String.mk (List.replicate 120000 'a')

/-- C6 counterexample content: 20000 characters (over the 10KB content ceiling). -/
def bigContent : String := String.mk (List.replicate 20000 'b')

/-- C6 counterexample creation parameters. -/
def p6 : CreateParams :=
  { content := bigContent, type := .conversation, category := bigCat,
    tags := [], permissions := [], encrypted := false }

/-- C6 counterexample environment (the upload itself would succeed if reached). -/
def env6 : CreateEnv :=
  { uuid := "cccc0001", freshSalt := "s6", iv := "i6",
    now := "2024-01-11T00:00:00.000Z", upload := okUpload "0xe1" }

/-- The record `createMemory` assembles for the C6 counterexample input. -/
def m6 : MemoryEntry :=
  { id := "cccc0001", content := truncateContent bigContent, type := .conversation,
    category := bigCat, tags := [], createdAt := "2024-01-11T00:00:00.000Z",
    updatedAt := "2024-01-11T00:00:00.000Z", encrypted := false,
    accessPolicy := { owner := defaultOwner, permissions := [] },
    metadata := { size := (truncateContent bigContent).length,
                  mimeType := "text/plain", encoding := "utf-8",
                  checksum := generateChecksum (truncateContent bigContent),
                  version := 1, relatedMemories := [],
                  encryptionKeyId := none, encryptionSalt := none },
    ipfsHash := none }

theorem c6build_eq : buildMemory lenHash km0 es0 p6 env6 = .ok (m6, km0) := rfl

/-! General lemmas about the embedded definitions. -/

/-- UTF-8 length distributes over string append. -/
theorem utf8Len_append (a b : String) : utf8Len (a ++ b) = utf8Len a + utf8Len b := by
  cases a with
  | mk la =>
    cases b with
    | mk lb =>
      show utf8Len (String.mk (la ++ lb)) = _
      simp [utf8Len, List.map_append]

/-- Escaping leaves a run of `'a'` characters unchanged. -/
theorem jsonEscape_replicate_a (n : Nat) :
    jsonEscape (String.mk (List.replicate n 'a')) = String.mk (List.replicate n 'a') := by
  simp only [jsonEscape]
  congr 1
  induction n with
  | zero => rfl
  | succ k ih =>
    simp only [List.replicate_succ, List.foldr_cons, ih]
    rfl

/-- UTF-8 length of a run of `'a'` characters. -/
theorem utf8Len_replicate_a (n : Nat) :
    utf8Len (String.mk (List.replicate n 'a')) = n := by
  simp only [utf8Len]
  induction n with
  | zero => rfl
  | succ k ih =>
    simp only [List.replicate_succ, List.map_cons, List.sum_cons, ih]
    have h1 : utf8CharLen 'a' = 1 := rfl
    omega

/-- The serialized entity is at least as long as its JSON-escaped category field. -/
theorem renderLen_ge_category (m : MemoryEntry) :
    utf8Len (jsonStr m.category) ≤ utf8Len (renderMemoryData m none) := by
  simp only [renderMemoryData, utf8Len_append]
  omega

/-- `uploadMemory` throws `Transaction too large` (releasing the lock) whenever the
hex-encoded payload exceeds `MAX_TX_SIZE = 200000`. -/
theorem upload_too_large (gs : GolemState) (o : UploadOutcome) (mem : MemoryEntry)
    (hc : gs.client = true)
    (hbig : 200000 < 2 * utf8Len (renderMemoryData mem none) + 2) :
    ∃ gs2, uploadMemoryG gs o mem =
      (.error (.txTooLarge (2 * utf8Len (renderMemoryData mem none) + 2)), gs2) ∧
      gs2.txLock = false := by
  unfold uploadMemoryG
  rw [hc]
  simp only [Bool.true_eq_false, if_false, if_pos hbig]
  exact ⟨_, rfl, rfl⟩

/-- Every record assembled by `buildMemory` has `metadata.size` equal to the length of
its (possibly truncated) stored content, carries the caller's category verbatim, and
starts at version 1. -/
theorem buildMemory_ok_facts {sha : String → String} {km : KMState} {es : ESState}
    {p : CreateParams} {env : CreateEnv} {m : MemoryEntry} {km2 : KMState}
    (h : buildMemory sha km es p env = .ok (m, km2)) :
    m.metadata.size = m.content.length ∧ m.category = p.category ∧
    m.metadata.version = 1 := by
  unfold buildMemory at h
  simp only [] at h
  split at h
  · exact (Except.noConfusion h)
  · simp only [Except.ok.injEq, Prod.mk.injEq] at h
    obtain ⟨hm, -⟩ := h
    subst hm
    exact ⟨rfl, rfl, rfl⟩

/-- Over-limit content is truncated to the 9900-character cut plus the visible
truncation marker, for a stored length of exactly 9914. -/
theorem truncate_over (s : String) (h : 10000 < s.length) :
    truncateContent s = String.mk (s.data.take 9900) ++ "...[TRUNCATED]" ∧
    (truncateContent s).length = 9914 := by
  have hif : truncateContent s = String.mk (s.data.take 9900) ++ "...[TRUNCATED]" := by
    simp [truncateContent, h]
  refine ⟨hif, ?_⟩
  rw [hif]
  cases s with
  | mk l =>
    show (String.mk (l.take 9900) ++ String.mk "...[TRUNCATED]".data).length = 9914
    have hlen2 : (String.mk (l.take 9900) ++ String.mk "...[TRUNCATED]".data) = String.mk (l.take 9900 ++ "...[TRUNCATED]".data) := rfl
    rw [hlen2]
    show (l.take 9900 ++ "...[TRUNCATED]".data).length = 9914
    rw [List.length_append, List.length_take]
    have hl : l.length = String.length (String.mk l) := rfl
    have h14 : ("...[TRUNCATED]".data).length = 14 := rfl
    omega

/-- `createMemory` unfolded at a successful build: the result is determined by the
adapter upload of the assembled record. -/
theorem createMemory_build_upload (sha : String → String) (st : SysState)
    (env : CreateEnv) (p : CreateParams) (mem : MemoryEntry) (km2 : KMState)
    (hb : buildMemory sha st.km st.es p env = .ok (mem, km2)) :
    createMemory sha st env p =
      (match uploadMemoryG st.golem env.upload mem with
       | (.ok r, gs2) =>
         (.ok { mem with ipfsHash := some r.entityKey },
          { st with km := km2, golem := gs2 })
       | (.error e, gs2) =>
         (.error (.creationFailed e), { st with km := km2, golem := gs2 })) := by
  unfold createMemory
  rw [hb]

/-- `createMemory` wraps an adapter upload failure as `Memory creation failed`. -/
theorem createMemory_upload_error (sha : String → String) (st : SysState)
    (env : CreateEnv) (p : CreateParams) (mem : MemoryEntry) (km2 : KMState)
    (e : UploadError) (gs2 : GolemState)
    (hb : buildMemory sha st.km st.es p env = .ok (mem, km2))
    (hu : uploadMemoryG st.golem env.upload mem = (.error e, gs2)) :
    createMemory sha st env p =
      (.error (.creationFailed e), { st with km := km2, golem := gs2 }) := by
  rw [createMemory_build_upload sha st env p mem km2 hb, hu]

/-- The adapter's collection loop never grows past its limit. -/
theorem golemSearchAux_length_le (store : List (String × EntityData)) (q : String)
    (o : Option String) (limit : Nat) :
    ∀ keys acc, acc.length < limit →
      (golemSearchAux store q o limit keys acc).length ≤ limit := by
  intro keys
  induction keys with
  | nil =>
    intro acc h
    unfold golemSearchAux
    omega
  | cons k rest ih =>
    intro acc h
    unfold golemSearchAux
    rcases htm : tryMatchEntity store q o k with - | m
    · exact ih acc h
    · dsimp only
      split
      · simp only [List.length_append, List.length_cons, List.length_nil]
        omega
      · next hnot =>
        refine ih _ ?_
        simp only [List.length_append, List.length_cons, List.length_nil] at hnot ⊢
        omega

/-- `searchMemories` on the adapter returns at most ten records (the default limit). -/
theorem golemSearch_length_le (gs : GolemState) (q : String) (o : Option String) :
    (golemSearch gs q o 10).length ≤ 10 := by
  unfold golemSearch
  split
  · simp
  · exact golemSearchAux_length_le gs.store q o 10 _ [] (by simp)

/-- Once the collection loop has reached its limit, any further entity keys are never
examined: the loop's result is unchanged by appending more keys. -/
theorem golemSearchAux_stop (store : List (String × EntityData)) (q : String)
    (o : Option String) (limit : Nat) :
    ∀ keys1 keys2 acc, acc.length < limit →
      limit ≤ (golemSearchAux store q o limit keys1 acc).length →
      golemSearchAux store q o limit (keys1 ++ keys2) acc =
        golemSearchAux store q o limit keys1 acc := by
  intro keys1
  induction keys1 with
  | nil =>
    intro keys2 acc hacc hlen
    unfold golemSearchAux at hlen
    omega
  | cons k rest ih =>
    intro keys2 acc hacc hlen
    rw [List.cons_append]
    unfold golemSearchAux at hlen ⊢
    rcases htm : tryMatchEntity store q o k with - | m <;>
      simp only [htm] at hlen ⊢
    · exact ih keys2 acc hacc hlen
    · split at hlen
      · next hle => rw [if_pos hle, if_pos hle]
      · next hgt =>
        rw [if_neg hgt, if_neg hgt]
        refine ih keys2 _ ?_ hlen
        simp only [List.length_append, List.length_cons, List.length_nil] at hgt ⊢
        omega

/-- Each in-process filter can only shrink the result list. -/
theorem filterByType_length_le (t? : Option MemoryType) (ms : List MemoryEntry) :
    (filterByType t? ms).length ≤ ms.length := by
  unfold filterByType
  split
  · exact List.length_filter_le _ _
  · exact Nat.le_refl _

theorem filterByCategoryExact_length_le (c? : Option String) (ms : List MemoryEntry) :
    (filterByCategoryExact c? ms).length ≤ ms.length := by
  unfold filterByCategoryExact
  split
  · split
    · exact Nat.le_refl _
    · exact List.length_filter_le _ _
  · exact Nat.le_refl _

theorem filterByCategoryLoose_length_le (c? : Option String) (ms : List MemoryEntry) :
    (filterByCategoryLoose c? ms).length ≤ ms.length := by
  unfold filterByCategoryLoose
  split
  · split
    · exact Nat.le_refl _
    · exact List.length_filter_le _ _
  · exact Nat.le_refl _

theorem filterByTags_length_le (ts? : Option (List String)) (ms : List MemoryEntry) :
    (filterByTags ts? ms).length ≤ ms.length := by
  unfold filterByTags
  split
  · split
    · exact Nat.le_refl _
    · exact List.length_filter_le _ _
  · exact Nat.le_refl _

theorem filterByDateRange_length_le (r? : Option (String × String))
    (ms : List MemoryEntry) : (filterByDateRange r? ms).length ≤ ms.length := by
  unfold filterByDateRange
  split
  · exact List.length_filter_le _ _
  · exact Nat.le_refl _

theorem applyLimitOffset_length_le (l? o? : Option Nat) (ms : List MemoryEntry) :
    (applyLimitOffset l? o? ms).length ≤ ms.length := by
  unfold applyLimitOffset
  split
  · split
    · exact Nat.le_refl _
    · simp only [List.length_take, List.length_drop]
      omega
  · exact Nat.le_refl _

/-- The orchestrator's search result is capped at the adapter's default limit of ten
records, no matter the query. -/
theorem searchMemoriesService_length_le (st : SysState) (q : MemorySearchQuery) :
    (searchMemoriesService st q).memories.length ≤ 10 := by
  show (filterByTags q.tags
          (filterByCategoryLoose q.category
            (filterByType q.type (searchMemoriesDirect st q)))).length ≤ 10
  have h0 : (searchMemoriesDirect st q).length ≤ 10 := by
    unfold searchMemoriesDirect
    calc (applyLimitOffset q.limit q.offset
            (filterByDateRange q.dateRange
              (filterByTags q.tags
                (filterByCategoryExact q.category
                  (filterByType q.type (golemSearch st.golem q.query none 10)))))).length
        ≤ (filterByDateRange q.dateRange
            (filterByTags q.tags
              (filterByCategoryExact q.category
                (filterByType q.type (golemSearch st.golem q.query none 10))))).length :=
          applyLimitOffset_length_le _ _ _
      _ ≤ (filterByTags q.tags
            (filterByCategoryExact q.category
              (filterByType q.type (golemSearch st.golem q.query none 10)))).length :=
          filterByDateRange_length_le _ _
      _ ≤ (filterByCategoryExact q.category
            (filterByType q.type (golemSearch st.golem q.query none 10))).length :=
          filterByTags_length_le _ _
      _ ≤ (filterByType q.type (golemSearch st.golem q.query none 10)).length :=
          filterByCategoryExact_length_le _ _
      _ ≤ (golemSearch st.golem q.query none 10).length := filterByType_length_le _ _
      _ ≤ 10 := golemSearch_length_le _ _ _
  calc (filterByTags q.tags
          (filterByCategoryLoose q.category
            (filterByType q.type (searchMemoriesDirect st q)))).length
      ≤ (filterByCategoryLoose q.category
          (filterByType q.type (searchMemoriesDirect st q))).length :=
        filterByTags_length_le _ _
    _ ≤ (filterByType q.type (searchMemoriesDirect st q)).length :=
        filterByCategoryLoose_length_le _ _
    _ ≤ (searchMemoriesDirect st q).length := filterByType_length_le _ _
    _ ≤ 10 := h0

/-- `getMemory` never touches the adapter state (it only reads and may cache
regenerated keys). -/
theorem getMemory_golem_eq (sha : String → String) (st : SysState)
    (fs now mid : String) : ((getMemory sha st fs now mid).2).golem = st.golem := by
  unfold getMemory
  split
  · rfl
  · split
    · rfl
    · rfl

/-- `getMemory` never touches the encryption service's key store. -/
theorem getMemory_es_eq (sha : String → String) (st : SysState)
    (fs now mid : String) : ((getMemory sha st fs now mid).2).es = st.es := by
  unfold getMemory
  split
  · rfl
  · split
    · rfl
    · rfl

/-- `storeGet` on a cons cell. -/
theorem storeGet_cons (x : String × EntityData) (l : List (String × EntityData))
    (k : String) :
    storeGet (x :: l) k = if x.1 == k then some x.2 else storeGet l k := by
  rcases h : (x.1 == k) with - | -
  · simp [storeGet, List.find?_cons, h]
  · simp [storeGet, List.find?_cons, h]

/-- `storeSet` on a cons cell. -/
theorem storeSet_cons (x : String × EntityData) (l : List (String × EntityData))
    (k : String) (v : EntityData) :
    storeSet (x :: l) k v = (if x.1 == k then (k, v) else x) :: storeSet l k v := rfl

/-- Looking up the key that `storeSet` just wrote: the stored value is replaced
exactly when the key was present. -/
theorem storeGet_storeSet_self (store : List (String × EntityData)) (k : String)
    (v : EntityData) :
    storeGet (storeSet store k v) k = (storeGet store k).map (fun _ => v) := by
  induction store with
  | nil => rfl
  | cons p rest ih =>
    rw [storeSet_cons, storeGet_cons, storeGet_cons]
    rcases hpk : (p.1 == k) with - | -
    · rw [if_neg (by simp [hpk]), if_neg (by simp [hpk])]
      · simpa using ih
    · rw [if_pos (by simp [hpk]), if_pos (by simp [hpk])]
      simp

/-- The single-writer transaction lock is clear after every `uploadMemory` call that
got past the client check, on success and on every throw path alike. -/
theorem uploadMemoryG_releases_lock (gs : GolemState) (o : UploadOutcome)
    (mem : MemoryEntry) (hc : gs.client = true) :
    ((uploadMemoryG gs o mem).2).txLock = false := by
  unfold uploadMemoryG
  rw [hc]
  simp only [Bool.true_eq_false, if_false]
  split
  · rfl
  · split
    · rfl
    · rfl

/-- When the client is missing, `uploadMemory` throws before touching the lock. -/
theorem uploadMemoryG_noClient (gs : GolemState) (o : UploadOutcome)
    (mem : MemoryEntry) (hc : gs.client = false) :
    uploadMemoryG gs o mem = (.error .clientNotInitialized, gs) := by
  unfold uploadMemoryG
  rw [hc]
  rfl

/-- Inductive invariant of the two-writer lock automaton: a writer in its critical
section holds the lock, and the two writers are never both critical. -/
def LockInv (s : LockSys) : Prop :=
  (s.pc1 = .critical → s.lock = true) ∧ (s.pc2 = .critical → s.lock = true) ∧
    ¬(s.pc1 = .critical ∧ s.pc2 = .critical)

theorem lockInv_of_reach {s : LockSys} (h : LockReach s) : LockInv s := by
  induction h with
  | init =>
    refine ⟨?_, ?_, ?_⟩ <;> intro hc <;> simp [lockInit] at hc
  | step hr hstep ih =>
    obtain ⟨i1, i2, i12⟩ := ih
    cases hstep with
    | start1 h1 =>
      refine ⟨?_, i2, ?_⟩
      · intro hc; simp at hc
      · intro hc; simp at hc
    | acquire1 hw hl =>
      refine ⟨fun _ => rfl, fun _ => rfl, ?_⟩
      intro hc
      have h2 := i2 hc.2
      rw [hl] at h2
      simp at h2
    | release1 hcrit =>
      refine ⟨?_, ?_, ?_⟩
      · intro hc; simp at hc
      · intro hc
        exact ((i12 ⟨hcrit, hc⟩).elim)
      · intro hc
        have := hc.1
        simp at this
    | start2 h1 =>
      refine ⟨i1, ?_, ?_⟩
      · intro hc; simp at hc
      · intro hc
        have := hc.2
        simp at this
    | acquire2 hw hl =>
      refine ⟨fun _ => rfl, fun _ => rfl, ?_⟩
      intro hc
      have h2 := i1 hc.1
      rw [hl] at h2
      simp at h2
    | release2 hcrit =>
      refine ⟨?_, ?_, ?_⟩
      · intro hc
        exact ((i12 ⟨hc, hcrit⟩).elim)
      · intro hc; simp at hc
      · intro hc
        have := hc.2
        simp at this






/-- C2: for every encrypted record that `getMemory` locates, when the cached-key
lookup, the salt-based key regeneration, and the iteration over all stored fallback
keys each fail to decrypt, `getMemory` still returns the record with its content left
as the raw ciphertext envelope — the embedded pipeline is a total function, so no
decryption error propagates to the caller. -/
theorem C2_getMemory_degrades_to_ciphertext (sha : String → String) (st : SysState)
    (fs now mid : String) (memory : MemoryEntry)
    (hfound : (searchMemoriesDirect st (idQuery mid)).find? (fun m => m.id == mid) =
      some memory)
    (henc : memory.encrypted = true)
    (h1 : ∀ kid, memory.metadata.encryptionKeyId = some kid →
      tryParseDecrypt st.es st.km memory.content kid = none)
    (h2 : (regenAttempt sha st.es st.km fs now mid memory.metadata.encryptionSalt
      memory.content).1 = none)
    (h3 : fallbackDecrypt st.es
      (regenAttempt sha st.es st.km fs now mid memory.metadata.encryptionSalt
        memory.content).2 memory.content = none) :
    (getMemory sha st fs now mid).1 = some memory := by
  have hstage : (decryptStage sha st.es st.km fs now mid memory).1 = memory := by
    unfold decryptStage
    rcases hini : isInitialized st.km with - | -
    · simp [hini]
    · simp only [hini, Bool.true_eq_false, if_false, h2, h3]
      rcases hki : memory.metadata.encryptionKeyId with - | kid
      · simp [jsTruthyStr]
      · rcases hkid : (kid != "") with - | -
        · simp [jsTruthyStr, hkid]
        · simp only [jsTruthyStr, hkid, if_true, Option.getD_some]
          rcases hgk : getKey st.km kid with - | key
          · simp only [hgk]
          · simp only [hgk, h1 kid hki]
  unfold getMemory
  rw [hfound]
  simp only [henc, if_true]
  rw [hstage]

/-- Behaviour of the write-back tail of `updateMemory`: a successful adapter write
returns and stores the bumped record; a failed write errors with the store
untouched. -/
theorem finishUpdate_facts (st1 : SysState) (es2 : ESState) (updOk : Bool)
    (ex up2 : MemoryEntry) (hclient : st1.golem.client = true)
    (hver : up2.metadata.version = ex.metadata.version + 1) :
    (updOk = true →
      ∃ m, (finishUpdate st1 es2 updOk ex up2).1 = .ok m ∧
        m.metadata.version = ex.metadata.version + 1 ∧
        (∀ e txi, storeGet ((finishUpdate st1 es2 updOk ex up2).2).golem.store
            (ex.ipfsHash.getD "") = some (.memEnt e txi) →
          e.metadata.version = ex.metadata.version + 1))
    ∧ (updOk = false →
      (finishUpdate st1 es2 updOk ex up2).1 = .error .updateFailed ∧
        ((finishUpdate st1 es2 updOk ex up2).2).golem.store = st1.golem.store) := by
  constructor
  · intro hok
    subst hok
    unfold finishUpdate updateMemoryG
    rw [hclient]
    simp only [Bool.true_eq_false, if_false, if_true]
    refine ⟨_, rfl, hver, ?_⟩
    dsimp only
    intro e txi h
    rw [storeGet_storeSet_self] at h
    rcases hsg : storeGet st1.golem.store (ex.ipfsHash.getD "") with - | w
    · rw [hsg] at h
      simp at h
    · rw [hsg] at h
      simp only [Option.map_some'] at h
      cases h
      exact hver
  · intro hko
    subst hko
    unfold finishUpdate updateMemoryG
    rw [hclient]
    simp only [Bool.true_eq_false, Bool.false_eq_true, if_false]
    exact ⟨trivial, trivial⟩

/-- C4: for every record that `getMemory` can locate, a successful `updateMemory`
returns — and writes back under the record's storage handle — a record whose
`metadata.version` is exactly the previous version plus one, while a failed adapter
write surfaces an error and leaves the stored entities unchanged; hence the stored
version never decreases. -/
theorem C4_updateMemory_version_monotonic (sha : String → String) (st : SysState)
    (env : UpdateEnv) (mid : String) (u : UpdateFields) (ex : MemoryEntry)
    (hfound : (getMemory sha st env.freshSalt env.now mid).1 = some ex)
    (hclient : st.golem.client = true) :
    (env.updOk = true →
      ∃ m, (updateMemoryService sha st env mid u).1 = .ok m ∧
        m.metadata.version = ex.metadata.version + 1 ∧
        (∀ e txi, storeGet ((updateMemoryService sha st env mid u).2).golem.store
            (ex.ipfsHash.getD "") = some (.memEnt e txi) →
          e.metadata.version = ex.metadata.version + 1))
    ∧ (env.updOk = false →
      (updateMemoryService sha st env mid u).1 = .error .updateFailed ∧
        ((updateMemoryService sha st env mid u).2).golem.store = st.golem.store) := by
  have hpair : getMemory sha st env.freshSalt env.now mid =
      (some ex, (getMemory sha st env.freshSalt env.now mid).2) := by
    rw [← hfound]
  generalize hst1 : (getMemory sha st env.freshSalt env.now mid).2 = st1 at hpair
  have hg1 : st1.golem = st.golem := by
    rw [← hst1]
    exact getMemory_golem_eq sha st env.freshSalt env.now mid
  have hc1 : st1.golem.client = true := by rw [hg1]; exact hclient
  unfold updateMemoryService
  rw [hpair]
  rcases hcnt : u.content with - | c
  · simp only [hcnt]
    have hff := finishUpdate_facts st1 st1.es env.updOk ex
      { ex with content := Option.getD none ex.content,
                category := u.category.getD ex.category,
                tags := u.tags.getD ex.tags,
                accessPolicy := u.accessPolicy.getD ex.accessPolicy,
                updatedAt := env.now,
                metadata := { ex.metadata with version := ex.metadata.version + 1 } }
      hc1 rfl
    refine ⟨fun hok => hff.1 hok, fun hko => ⟨(hff.2 hko).1, ?_⟩⟩
    rw [(hff.2 hko).2, hg1]
  · simp only [hcnt]
    have hkk : ((generateKeyPair st1.es env.keyPairId env.keyPairMat
        env.now).2).keys.find? (fun k => k.keyId == env.keyPairId) ≠ none := by
      unfold generateKeyPair
      intro hnone
      rw [List.find?_eq_none] at hnone
      have hmem : mkKeyPairKey env.keyPairId env.keyPairMat env.now ∈
          st1.es.keys ++ [mkKeyPairKey env.keyPairId env.keyPairMat env.now] := by simp
      have hx := hnone _ hmem
      simp [mkKeyPairKey] at hx
    rcases hkey : ((generateKeyPair st1.es env.keyPairId env.keyPairMat
        env.now).2).keys.find? (fun k => k.keyId == env.keyPairId) with - | key
    · exact absurd hkey hkk
    · have hes : esEncryptOwn (generateKeyPair st1.es env.keyPairId env.keyPairMat
          env.now).2 c ((generateKeyPair st1.es env.keyPairId env.keyPairMat
          env.now).1).keyId env.iv = .ok (encryptWithKey key c env.iv) := by
        unfold esEncryptOwn
        rw [show ((generateKeyPair st1.es env.keyPairId env.keyPairMat
          env.now).1).keyId = env.keyPairId from rfl]
        rw [hkey]
      simp only [hes]
      have hff := finishUpdate_facts st1
        (generateKeyPair st1.es env.keyPairId env.keyPairMat env.now).2 env.updOk ex
        { ex with content := envToJson (encryptWithKey key c env.iv),
                  category := u.category.getD ex.category,
                  tags := u.tags.getD ex.tags,
                  accessPolicy := u.accessPolicy.getD ex.accessPolicy,
                  updatedAt := env.now, encrypted := true,
                  metadata := { ex.metadata with version := ex.metadata.version + 1 } }
        hc1 rfl
      refine ⟨fun hok => hff.1 hok, fun hko => ⟨(hff.2 hko).1, ?_⟩⟩
      rw [(hff.2 hko).2, hg1]

/-- Retrieval after a fresh session re-initialization also fails to find the record. -/
theorem c7get_none :
    (getMemory lenHash ⟨km0, es0, gs1⟩ "f3" "t3" uuid1).1 = none := rfl

/-- C1: evaluating the create-and-retrieve scenario. After
`initializeWithPassword("pw")`, `createMemory("hello world", conversation, "test",
[], default policy, encrypted)` succeeds and returns a record with `encrypted = true`
and `metadata.encryptionKeyId` set — but the subsequent `getMemory(R.id)` returns
`null` instead of the plaintext: the orchestrator passes the record id to the
adapter as a *content substring* query, and the encrypted envelope does not contain
the record's own id, so the id-match `find` never sees the record. -/
theorem C1_createEncrypted_then_getMemory_null :
    (c1run.1.toOption.map (fun m => (m.encrypted, m.metadata.encryptionKeyId))) =
      some (true, some ("memory_" ++ uuid1))
    ∧ (getMemory lenHash c1run.2 "f2" "2024-01-02T00:00:00.000Z" uuid1).1 = none := by
  constructor
  · rw [c1run_eq]
    rfl
  · rw [c1run_eq]
    exact c1get_none

/-- C7: evaluating the salt-regeneration fallback after a session restart
(`clearSession` followed by `initializeWithPassword` with the same password, so the
per-record key cache is empty but the master secret matches). The decryption fallback
chain itself recovers the original plaintext from the persisted salt — but `getMemory`
never reaches it: the id-substring search cannot find the encrypted record, so
`getMemory` returns `null`. -/
theorem C7_salt_regeneration_unreachable :
    (getMemory lenHash
        { c1run.2 with km := initializeWithPassword "pw" (clearSession c1run.2.km) }
        "f3" "t3" uuid1).1 = none
    ∧ ((retrieveMemoryGolem (c1run.2).golem.store "0xabc").map
        (fun m => (decryptStage lenHash (c1run.2).es
          (initializeWithPassword "pw" (clearSession (c1run.2).km))
          "f3" "t3" uuid1 m).1.content)) = some "hello world" := by
  constructor
  · rw [c1run_eq]
    exact c7get_none
  · rw [c1run_eq]
    exact c7regen

/-- C5: the single-writer transaction lock is released on every exit path of
`uploadMemory` — success, transaction-too-large throw, or send failure — and the
missing-client throw happens before the lock is touched; moreover, in the two-writer
interleaving model of the busy-flag lock, no two write submissions are ever in flight
at the same time. -/
theorem C5_txLock_released_and_exclusive :
    (∀ (gs : GolemState) (o : UploadOutcome) (mem : MemoryEntry), gs.client = true →
      ((uploadMemoryG gs o mem).2).txLock = false)
    ∧ (∀ (gs : GolemState) (o : UploadOutcome) (mem : MemoryEntry), gs.client = false →
      uploadMemoryG gs o mem = (.error .clientNotInitialized, gs))
    ∧ (∀ s, LockReach s → ¬(s.pc1 = .critical ∧ s.pc2 = .critical)) :=
  ⟨uploadMemoryG_releases_lock, uploadMemoryG_noClient,
   fun _ h => (lockInv_of_reach h).2.2⟩

/-- C5 witness: the lock-release and mutual-exclusion facts at concrete inputs. -/
theorem C5_txLock_witness :
    ((uploadMemoryG gs0 (okUpload "0xw5") c2mem).2).txLock = false ∧
    ¬(lockInit.pc1 = .critical ∧ lockInit.pc2 = .critical) :=
  ⟨C5_txLock_released_and_exclusive.1 gs0 (okUpload "0xw5") c2mem rfl,
   C5_txLock_released_and_exclusive.2.2 lockInit LockReach.init⟩

/-- C2 witness: a concrete encrypted record (found via its id occurring in the stored
ciphertext) on which every decryption strategy fails; `getMemory` returns it with the
ciphertext content untouched. -/
theorem C2_getMemory_degrades_witness :
    (getMemory lenHash st2w "fz" "2024-01-06T00:00:00.000Z" "m2c").1 = some c2found := by
  refine C2_getMemory_degrades_to_ciphertext lenHash st2w "fz"
    "2024-01-06T00:00:00.000Z" "m2c" c2found rfl rfl ?_ rfl rfl
  intro kid h
  simp only [show c2found.metadata.encryptionKeyId = some "memory_m2c" from rfl,
    Option.some.injEq] at h
  subst h
  rfl

/-- C4 witness: updating a concrete version-1 record succeeds and yields version 2. -/
theorem C4_updateMemory_version_witness :
    ∃ m, (updateMemoryService lenHash st4 env4 "m4" upd4).1 = .ok m ∧
      m.metadata.version = c4found.metadata.version + 1 := by
  have h := C4_updateMemory_version_monotonic lenHash st4 env4 "m4" upd4 c4found rfl rfl
  obtain ⟨m, hm1, hm2, -⟩ := h.1 rfl
  exact ⟨m, hm1, hm2⟩

/-- C3: key-derivation determinism. On an initialized instance, two
`generateMemoryKey` calls for the same memory id with the same explicit non-empty salt
yield identical derived key material (public/private key strings and recorded salt),
whatever fresh random salt and timestamp each call sees; two calls that omit the salt
argument each use their own fresh random salt, so when those differ the resulting keys
differ. -/
theorem C3_generateMemoryKey_determinism (sha : String → String) (km : KMState)
    (fs1 now1 fs2 now2 mid s : String)
    (hinit : isInitialized km = true) (hs : s ≠ "") (hf : fs1 ≠ fs2) :
    (∀ k1 km1 k2 km2,
      generateMemoryKey sha km fs1 now1 mid (some s) = .ok (k1, km1) →
      generateMemoryKey sha km fs2 now2 mid (some s) = .ok (k2, km2) →
      k1.publicKey = k2.publicKey ∧ k1.privateKey = k2.privateKey ∧ k1.salt = k2.salt)
    ∧ (∀ k1 km1 k2 km2,
      generateMemoryKey sha km fs1 now1 mid none = .ok (k1, km1) →
      generateMemoryKey sha km fs2 now2 mid none = .ok (k2, km2) →
      k1.salt = some fs1 ∧ k2.salt = some fs2 ∧ k1 ≠ k2) := by
  constructor
  · intro k1 km1 k2 km2 h1 h2
    unfold generateMemoryKey at h1 h2
    rw [hinit] at h1 h2
    simp only [Bool.true_eq_false, if_false, if_neg hs, Except.ok.injEq,
      Prod.mk.injEq] at h1 h2
    obtain ⟨hk1, -⟩ := h1
    obtain ⟨hk2, -⟩ := h2
    subst hk1
    subst hk2
    exact ⟨rfl, rfl, rfl⟩
  · intro k1 km1 k2 km2 h1 h2
    unfold generateMemoryKey at h1 h2
    rw [hinit] at h1 h2
    simp only [Bool.true_eq_false, if_false, Except.ok.injEq, Prod.mk.injEq] at h1 h2
    obtain ⟨hk1, -⟩ := h1
    obtain ⟨hk2, -⟩ := h2
    subst hk1
    subst hk2
    refine ⟨rfl, rfl, ?_⟩
    intro heq
    exact hf (by
      have h := congrArg EncryptionKey.salt heq
      simpa using h)

/-- C3 witness: determinism at a concrete initialized state, memory id and salts. -/
theorem C3_generateMemoryKey_witness :
    isInitialized km0 = true ∧ "sC3" ≠ "" ∧ "fA" ≠ "fB" ∧
    (∀ k1 km1 k2 km2,
      generateMemoryKey lenHash km0 "fA" "tA" "midC3" (some "sC3") = .ok (k1, km1) →
      generateMemoryKey lenHash km0 "fB" "tB" "midC3" (some "sC3") = .ok (k2, km2) →
      k1.publicKey = k2.publicKey ∧ k1.privateKey = k2.privateKey ∧ k1.salt = k2.salt)
    ∧ (∀ k1 km1 k2 km2,
      generateMemoryKey lenHash km0 "fA" "tA" "midC3" none = .ok (k1, km1) →
      generateMemoryKey lenHash km0 "fB" "tB" "midC3" none = .ok (k2, km2) →
      k1.salt = some "fA" ∧ k2.salt = some "fB" ∧ k1 ≠ k2) :=
  ⟨rfl, by decide, by decide,
   (C3_generateMemoryKey_determinism lenHash km0 "fA" "tA" "fB" "tB" "midC3" "sC3"
     rfl (by decide) (by decide)).1,
   (C3_generateMemoryKey_determinism lenHash km0 "fA" "tA" "fB" "tB" "midC3" "sC3"
     rfl (by decide) (by decide)).2⟩

/-- C9 counterexample: `initializeWithPassword("")` sets a master secret (the empty
string), yet `isInitialized()` reports `false` — the `!!this.masterKey` check
conflates the empty password with the unset state — so "isInitialized() returns true
iff a master secret is currently set" fails, and `generateMemoryKey` rejects this
initialized instance as not initialized. -/
theorem C9_counterexample :
    (initializeWithPassword "" ⟨none, []⟩).masterKey = some "" ∧
    isInitialized (initializeWithPassword "" ⟨none, []⟩) = false ∧
    generateMemoryKey lenHash (initializeWithPassword "" ⟨none, []⟩) "f9" "t9" "m9" none
      = .error .notInitialized :=
  ⟨rfl, rfl, rfl⟩

/-- C9 amended: `generateMemoryKey` on an instance whose master secret is unset *or
empty* fails fast with the distinguishable not-initialized error — it never silently
derives a key — and succeeds otherwise; `isInitialized()` returns `true` iff the
master secret is set to a *non-empty* string (JS truthiness: an empty-string master
secret counts as uninitialized, diverging from "iff a master secret is currently
set"). -/
theorem C9_uninitialized_fail_fast (sha : String → String) (km : KMState)
    (fs now mid : String) (s? : Option String) :
    (isInitialized km = true ↔ ∃ mk, km.masterKey = some mk ∧ mk ≠ "")
    ∧ (isInitialized km = false →
        generateMemoryKey sha km fs now mid s? = .error .notInitialized)
    ∧ (isInitialized km = true →
        ∃ r, generateMemoryKey sha km fs now mid s? = .ok r) := by
  refine ⟨?_, ?_, ?_⟩
  · show jsTruthyStr km.masterKey = true ↔ _
    rcases hmk : km.masterKey with - | t
    · simp [jsTruthyStr]
    · simp [jsTruthyStr]
  · intro h
    simp [generateMemoryKey, h]
  · intro h
    simp only [generateMemoryKey, h, Bool.true_eq_false, if_false]
    exact ⟨_, rfl⟩

/-- C9 witness: the amended statement at a concrete initialized state and a concrete
unset state. -/
theorem C9_uninitialized_witness :
    (isInitialized km0 = true ↔ ∃ mk, km0.masterKey = some mk ∧ mk ≠ "") ∧
    generateMemoryKey lenHash (⟨none, []⟩ : KMState) "f9w" "t9w" "m9w" none =
      .error .notInitialized :=
  ⟨(C9_uninitialized_fail_fast lenHash km0 "f9w" "t9w" "m9w" none).1,
   (C9_uninitialized_fail_fast lenHash ⟨none, []⟩ "f9w" "t9w" "m9w" none).2.1 rfl⟩

/-- C6 counterexample: a record whose content (20000 characters) exceeds the 10KB
content ceiling and whose category alone serializes past the 200KB transaction
ceiling. `createMemory` does truncate the content, but the upload step rejects the
serialized record with `Transaction too large`, so creation *does* fail outright
because of size — refuting "the upload step never rejects a record for exceeding the
transaction-size ceiling". -/
theorem C6_counterexample :
    10000 < p6.content.length ∧
    ∃ n st2, 200000 < n ∧
      createMemory lenHash st0 env6 p6 = (.error (.creationFailed (.txTooLarge n)), st2) := by
  constructor
  · show 10000 < bigContent.length
    have h : bigContent.length = 20000 := by
      rw [show bigContent.length = (List.replicate 20000 'b').length from rfl]
      exact List.length_replicate 20000 'b'
    omega
  · have h2 : utf8Len (jsonStr m6.category) = 120002 := by
      show utf8Len (jsonStr bigCat) = 120002
      rw [jsonStr, show bigCat = String.mk (List.replicate 120000 'a') from rfl,
        jsonEscape_replicate_a, utf8Len_append, utf8Len_append, utf8Len_replicate_a]
      rfl
    have hbig : 200000 < 2 * utf8Len (renderMemoryData m6 none) + 2 := by
      have h1 := renderLen_ge_category m6
      omega
    obtain ⟨gs2, hu, -⟩ := upload_too_large gs0 env6.upload m6 rfl hbig
    exact ⟨2 * utf8Len (renderMemoryData m6 none) + 2,
      { st0 with km := km0, golem := gs2 }, hbig,
      createMemory_upload_error lenHash st0 env6 p6 m6 km0 _ gs2 c6build_eq hu⟩

/-- C6 amended: content above the 10KB ceiling is truncated to the 9900-character cut
plus the visible `...[TRUNCATED]` marker (stored length 9914), and every assembled
record's `metadata.size` equals its stored content length — but creation can still
fail outright on size: whenever the serialized record exceeds `MAX_TX_SIZE = 200000`
hex-encoded bytes, the upload step throws `Transaction too large` (releasing the
write lock) and `createMemory` surfaces it as a creation failure. -/
theorem C6_truncation_and_tx_ceiling (sha : String → String) (st : SysState)
    (env : CreateEnv) (p : CreateParams) (m : MemoryEntry) (km2 : KMState)
    (hbuild : buildMemory sha st.km st.es p env = .ok (m, km2))
    (hclient : st.golem.client = true) :
    (10000 < p.content.length → p.encrypted = false →
      m.content = String.mk (p.content.data.take 9900) ++ "...[TRUNCATED]" ∧
      m.content.length = 9914)
    ∧ m.metadata.size = m.content.length
    ∧ (200000 < 2 * utf8Len (renderMemoryData m none) + 2 →
        ∃ st2, createMemory sha st env p =
          (.error (.creationFailed
            (.txTooLarge (2 * utf8Len (renderMemoryData m none) + 2))), st2)
          ∧ st2.golem.txLock = false) := by
  obtain ⟨hsize, -, -⟩ := buildMemory_ok_facts hbuild
  refine ⟨?_, hsize, ?_⟩
  · intro hlen henc
    have hb2 := hbuild
    unfold buildMemory at hb2
    rw [henc] at hb2
    simp only [Bool.false_eq_true, if_false, Except.ok.injEq, Prod.mk.injEq] at hb2
    obtain ⟨hm, -⟩ := hb2
    have hc : m.content = truncateContent p.content := by rw [← hm]
    obtain ⟨ht1, ht2⟩ := truncate_over p.content hlen
    constructor
    · rw [hc, ht1]
    · rw [hc, ht2]
  · intro hbig
    obtain ⟨gs2, hu, hlock⟩ := upload_too_large st.golem env.upload m hclient hbig
    exact ⟨{ st with km := km2, golem := gs2 },
      createMemory_upload_error sha st env p m km2 _ gs2 hbuild hu, hlock⟩

/-- C6 witness: the amended statement at the concrete over-limit record. -/
theorem C6_truncation_witness :
    buildMemory lenHash st0.km st0.es p6 env6 = .ok (m6, km0) ∧
    st0.golem.client = true ∧
    m6.metadata.size = m6.content.length :=
  ⟨c6build_eq, rfl,
   (C6_truncation_and_tx_ceiling lenHash st0 env6 p6 m6 km0 c6build_eq rfl).2.1⟩

/-- C8 counterexample: after creating the three scenario records (types conversation,
learned_fact, learned_fact), `searchMemories` with empty text and type filter
`learned_fact` does return exactly 2 records — but the reported facets are the
hard-coded all-zero object, so `facets.types.learned_fact` is `0`, not `2`: facet
counts are not computed over the filtered result set. -/
theorem C8_counterexample :
    (createMemory lenHash st0 env8a p8a).2 = st8a ∧
    (createMemory lenHash st8a env8b p8b).2 = st8b ∧
    (createMemory lenHash st8b env8c p8c).2 = st8 ∧
    (searchMemoriesService st8 q8).memories.length = 2 ∧
    (searchMemoriesService st8 q8).facets.types MemoryType.learned_fact = 0 := by
  refine ⟨?_, ?_, ?_, ?_, ?_⟩
  · rw [c8r1_eq]
  · rw [c8r2_eq]
  · rw [c8r3_eq]
  · rfl
  · rfl

/-- C8 amended: the scenario search returns exactly the two learned_fact records (ids
aaaa0002 and aaaa0003, in storage order) with `totalCount = 2`, but the facet object
is the hard-coded all-zero one: for *every* state and query, each type facet —
`learned_fact` included — is reported as 0. -/
theorem C8_search_filters_zero_facets :
    ((searchMemoriesService st8 q8).memories.map (fun m => m.id)) =
      ["aaaa0002", "aaaa0003"] ∧
    (searchMemoriesService st8 q8).totalCount = 2 ∧
    (searchMemoriesService st8 q8).facets = zeroFacets ∧
    ∀ (st : SysState) (q : MemorySearchQuery) (t : MemoryType),
      (searchMemoriesService st q).facets.types t = 0 := by
  refine ⟨?_, rfl, rfl, ?_⟩
  · rfl
  · intro st q t
    rfl

/-- C10 counterexample: a store of eleven owned entities — ten non-record blobs
followed by a record — on which search and `getMemory` *do* examine more than ten
entities: the limit caps collected matches, not examined entities, so the record
stored as the eleventh owned entity is found rather than reported missing. -/
theorem C10_counterexample :
    gs10.store.length = 11 ∧
    ((searchMemoriesService st10 { query := "x11" }).memories.map (fun m => m.id)) =
      ["x11"] ∧
    (getMemory lenHash st10 "f10" "t10" "x11").1 =
      some { recX with ipfsHash := some "0xb11" } := by
  refine ⟨rfl, ?_, ?_⟩
  · rfl
  · rfl

/-- C10 amended: the adapter's limit caps *collected matches*, not examined entities —
search results never exceed the default limit of ten, and once ten matches have been
collected the remaining entity keys are never examined; but an entity that merely sits
beyond the tenth storage position is still examined and can be returned when fewer
than ten earlier entities match. -/
theorem C10_limit_caps_matches (gs : GolemState) (q : String) (o : Option String)
    (st : SysState) (qq : MemorySearchQuery)
    (keys1 keys2 : List String) (acc : List MemoryEntry)
    (hacc : acc.length < 10)
    (hfull : 10 ≤ (golemSearchAux gs.store q o 10 keys1 acc).length) :
    (golemSearch gs q o 10).length ≤ 10 ∧
    (searchMemoriesService st qq).memories.length ≤ 10 ∧
    golemSearchAux gs.store q o 10 (keys1 ++ keys2) acc =
      golemSearchAux gs.store q o 10 keys1 acc :=
  ⟨golemSearch_length_le gs q o, searchMemoriesService_length_le st qq,
   golemSearchAux_stop gs.store q o 10 keys1 keys2 acc hacc hfull⟩

/-- C10 witness: the amended statement at a concrete store, with nine matches already
collected and a tenth arriving; the key list beyond the stopping point is ignored. -/
theorem C10_limit_caps_witness :
    ((List.replicate 9 recX).length < 10 ∧
      10 ≤ (golemSearchAux gs10.store "" none 10 ["0xb11"]
        (List.replicate 9 recX)).length) ∧
    (golemSearch gs10 "" none 10).length ≤ 10 ∧
    (searchMemoriesService st10 { query := "" }).memories.length ≤ 10 ∧
    golemSearchAux gs10.store "" none 10 (["0xb11"] ++ ["0xzz"])
        (List.replicate 9 recX) =
      golemSearchAux gs10.store "" none 10 ["0xb11"] (List.replicate 9 recX) :=
  ⟨⟨by decide, by decide⟩,
   C10_limit_caps_matches gs10 "" none st10 { query := "" } ["0xb11"] ["0xzz"]
     (List.replicate 9 recX) (by decide) (by decide)⟩

end Loops
